import Mathlib

/-!
Shallow embedding of the YM2149 PSG emulator (`src/ym2149-processor.js`,
`packages/core/src/envelope.ts`, `src/effects.ts`, `packages/core/src/replayer.ts`,
`packages/core/src/pt3/player.ts`, `packages/core/src/pt3/replayer.ts`).
JavaScript numbers that stay integral are modelled as `Nat`/`Int`; the
floating tick accumulator and the DAC table are modelled as exact rationals.
-/

namespace Ym2149Wa

/-! ## Tone generator (`ToneGenerator` in src/ym2149-processor.js) -/

/-- State of `ToneGenerator`: `counter`, `period`, `output` (0 or 1). -/
structure ToneGenerator where
  counter : Nat
  period : Nat
  output : Nat
deriving DecidableEq, Repr

/-- Constructor state of `ToneGenerator`. -/
def ToneGenerator.init : ToneGenerator := { counter := 0, period := 1, output := 0 }

/-- Embeds `ToneGenerator.setPeriod`: `period = Math.max(1, period)`. -/
def ToneGenerator.setPeriod (t : ToneGenerator) (p : Nat) : ToneGenerator :=
  { t with period := max 1 p }

/-- Embeds `ToneGenerator.tick`: increment counter, toggle output when the
counter reaches the period, return the (possibly toggled) output. -/
def ToneGenerator.tick (t : ToneGenerator) : Nat × ToneGenerator :=
  let c := t.counter + 1
  if c >= t.period then
    let o := t.output ^^^ 1
    (o, { t with counter := 0, output := o })
  else
    (t.output, { t with counter := c })

/-! ## Noise generator (`NoiseGenerator` in src/ym2149-processor.js) -/

/-- State of the 17-bit LFSR `NoiseGenerator`. -/
structure NoiseGenerator where
  lfsr : Nat
  counter : Nat
  period : Nat
  output : Nat
  halfTick : Bool
deriving DecidableEq, Repr

/-- Constructor state of `NoiseGenerator`: `lfsr = 1` (must be non-zero),
`counter = 0`, `period = 16`, `output = 0`, `halfTick = false`. -/
def NoiseGenerator.init : NoiseGenerator :=
  { lfsr := 1, counter := 0, period := 16, output := 0, halfTick := false }

/-- Embeds `NoiseGenerator.setPeriod`. -/
def NoiseGenerator.setPeriod (n : NoiseGenerator) (p : Nat) : NoiseGenerator :=
  { n with period := max 1 p }

/-- Embeds `NoiseGenerator.tick`: advance on every other call; on an advance
that reaches the period, `feedback = (lfsr XOR (lfsr >> 2)) AND 1`, then
shift right and insert the feedback at bit 16. -/
def NoiseGenerator.tick (n : NoiseGenerator) : Nat × NoiseGenerator :=
  let h := !n.halfTick
  if h then
    let c := n.counter + 1
    if c >= n.period then
      let feedback := (n.lfsr ^^^ (n.lfsr >>> 2)) &&& 1
      (feedback,
        { n with halfTick := h, counter := 0, output := feedback,
                 lfsr := (n.lfsr >>> 1) ||| (feedback <<< 16) })
    else
      (n.output, { n with halfTick := h, counter := c })
  else
    (n.output, { n with halfTick := h })

/-- Running the noise state machine: apply `tick` (discarding the returned
output) `k` times, as the per-sample inner loop of `process` does. -/
def NoiseGenerator.ticks (n : NoiseGenerator) : Nat -> NoiseGenerator
  | 0 => n
  | k + 1 => (n.tick.2).ticks k

/-! ## Envelope generator (`EnvelopeGenerator` in src/ym2149-processor.js) -/

/-- Embeds `EnvelopeGenerator.SHAPE_TO_ENV`, the shape-to-waveform-table map. -/
def SHAPE_TO_ENV : List Nat := [0, 0, 0, 0, 1, 1, 1, 1, 2, 3, 4, 5, 6, 7, 8, 9]

/-- Embeds `EnvelopeGenerator.ENV_DATA`: 10 envelope waveforms of 128 steps each. -/
def ENV_DATA : List Nat := [
  31, 30, 29, 28, 27, 26, 25, 24, 23, 22, 21, 20, 19, 18, 17, 16, 15, 14, 13, 12, 11, 10, 9, 8, 7, 6, 5, 4, 3, 2, 1, 0,
  0, 0, 0, 0, 0, 0, 0, 0, 0, 0, 0, 0, 0, 0, 0, 0, 0, 0, 0, 0, 0, 0, 0, 0, 0, 0, 0, 0, 0, 0, 0, 0,
  0, 0, 0, 0, 0, 0, 0, 0, 0, 0, 0, 0, 0, 0, 0, 0, 0, 0, 0, 0, 0, 0, 0, 0, 0, 0, 0, 0, 0, 0, 0, 0,
  0, 0, 0, 0, 0, 0, 0, 0, 0, 0, 0, 0, 0, 0, 0, 0, 0, 0, 0, 0, 0, 0, 0, 0, 0, 0, 0, 0, 0, 0, 0, 0,
  0, 1, 2, 3, 4, 5, 6, 7, 8, 9, 10, 11, 12, 13, 14, 15, 16, 17, 18, 19, 20, 21, 22, 23, 24, 25, 26, 27, 28, 29, 30, 31,
  0, 0, 0, 0, 0, 0, 0, 0, 0, 0, 0, 0, 0, 0, 0, 0, 0, 0, 0, 0, 0, 0, 0, 0, 0, 0, 0, 0, 0, 0, 0, 0,
  0, 0, 0, 0, 0, 0, 0, 0, 0, 0, 0, 0, 0, 0, 0, 0, 0, 0, 0, 0, 0, 0, 0, 0, 0, 0, 0, 0, 0, 0, 0, 0,
  0, 0, 0, 0, 0, 0, 0, 0, 0, 0, 0, 0, 0, 0, 0, 0, 0, 0, 0, 0, 0, 0, 0, 0, 0, 0, 0, 0, 0, 0, 0, 0,
  31, 30, 29, 28, 27, 26, 25, 24, 23, 22, 21, 20, 19, 18, 17, 16, 15, 14, 13, 12, 11, 10, 9, 8, 7, 6, 5, 4, 3, 2, 1, 0,
  31, 30, 29, 28, 27, 26, 25, 24, 23, 22, 21, 20, 19, 18, 17, 16, 15, 14, 13, 12, 11, 10, 9, 8, 7, 6, 5, 4, 3, 2, 1, 0,
  31, 30, 29, 28, 27, 26, 25, 24, 23, 22, 21, 20, 19, 18, 17, 16, 15, 14, 13, 12, 11, 10, 9, 8, 7, 6, 5, 4, 3, 2, 1, 0,
  31, 30, 29, 28, 27, 26, 25, 24, 23, 22, 21, 20, 19, 18, 17, 16, 15, 14, 13, 12, 11, 10, 9, 8, 7, 6, 5, 4, 3, 2, 1, 0,
  31, 30, 29, 28, 27, 26, 25, 24, 23, 22, 21, 20, 19, 18, 17, 16, 15, 14, 13, 12, 11, 10, 9, 8, 7, 6, 5, 4, 3, 2, 1, 0,
  0, 0, 0, 0, 0, 0, 0, 0, 0, 0, 0, 0, 0, 0, 0, 0, 0, 0, 0, 0, 0, 0, 0, 0, 0, 0, 0, 0, 0, 0, 0, 0,
  0, 0, 0, 0, 0, 0, 0, 0, 0, 0, 0, 0, 0, 0, 0, 0, 0, 0, 0, 0, 0, 0, 0, 0, 0, 0, 0, 0, 0, 0, 0, 0,
  0, 0, 0, 0, 0, 0, 0, 0, 0, 0, 0, 0, 0, 0, 0, 0, 0, 0, 0, 0, 0, 0, 0, 0, 0, 0, 0, 0, 0, 0, 0, 0,
  31, 30, 29, 28, 27, 26, 25, 24, 23, 22, 21, 20, 19, 18, 17, 16, 15, 14, 13, 12, 11, 10, 9, 8, 7, 6, 5, 4, 3, 2, 1, 0,
  0, 1, 2, 3, 4, 5, 6, 7, 8, 9, 10, 11, 12, 13, 14, 15, 16, 17, 18, 19, 20, 21, 22, 23, 24, 25, 26, 27, 28, 29, 30, 31,
  31, 30, 29, 28, 27, 26, 25, 24, 23, 22, 21, 20, 19, 18, 17, 16, 15, 14, 13, 12, 11, 10, 9, 8, 7, 6, 5, 4, 3, 2, 1, 0,
  0, 1, 2, 3, 4, 5, 6, 7, 8, 9, 10, 11, 12, 13, 14, 15, 16, 17, 18, 19, 20, 21, 22, 23, 24, 25, 26, 27, 28, 29, 30, 31,
  31, 30, 29, 28, 27, 26, 25, 24, 23, 22, 21, 20, 19, 18, 17, 16, 15, 14, 13, 12, 11, 10, 9, 8, 7, 6, 5, 4, 3, 2, 1, 0,
  31, 31, 31, 31, 31, 31, 31, 31, 31, 31, 31, 31, 31, 31, 31, 31, 31, 31, 31, 31, 31, 31, 31, 31, 31, 31, 31, 31, 31, 31, 31, 31,
  31, 31, 31, 31, 31, 31, 31, 31, 31, 31, 31, 31, 31, 31, 31, 31, 31, 31, 31, 31, 31, 31, 31, 31, 31, 31, 31, 31, 31, 31, 31, 31,
  31, 31, 31, 31, 31, 31, 31, 31, 31, 31, 31, 31, 31, 31, 31, 31, 31, 31, 31, 31, 31, 31, 31, 31, 31, 31, 31, 31, 31, 31, 31, 31,
  0, 1, 2, 3, 4, 5, 6, 7, 8, 9, 10, 11, 12, 13, 14, 15, 16, 17, 18, 19, 20, 21, 22, 23, 24, 25, 26, 27, 28, 29, 30, 31,
  0, 1, 2, 3, 4, 5, 6, 7, 8, 9, 10, 11, 12, 13, 14, 15, 16, 17, 18, 19, 20, 21, 22, 23, 24, 25, 26, 27, 28, 29, 30, 31,
  0, 1, 2, 3, 4, 5, 6, 7, 8, 9, 10, 11, 12, 13, 14, 15, 16, 17, 18, 19, 20, 21, 22, 23, 24, 25, 26, 27, 28, 29, 30, 31,
  0, 1, 2, 3, 4, 5, 6, 7, 8, 9, 10, 11, 12, 13, 14, 15, 16, 17, 18, 19, 20, 21, 22, 23, 24, 25, 26, 27, 28, 29, 30, 31,
  0, 1, 2, 3, 4, 5, 6, 7, 8, 9, 10, 11, 12, 13, 14, 15, 16, 17, 18, 19, 20, 21, 22, 23, 24, 25, 26, 27, 28, 29, 30, 31,
  31, 31, 31, 31, 31, 31, 31, 31, 31, 31, 31, 31, 31, 31, 31, 31, 31, 31, 31, 31, 31, 31, 31, 31, 31, 31, 31, 31, 31, 31, 31, 31,
  31, 31, 31, 31, 31, 31, 31, 31, 31, 31, 31, 31, 31, 31, 31, 31, 31, 31, 31, 31, 31, 31, 31, 31, 31, 31, 31, 31, 31, 31, 31, 31,
  31, 31, 31, 31, 31, 31, 31, 31, 31, 31, 31, 31, 31, 31, 31, 31, 31, 31, 31, 31, 31, 31, 31, 31, 31, 31, 31, 31, 31, 31, 31, 31,
  0, 1, 2, 3, 4, 5, 6, 7, 8, 9, 10, 11, 12, 13, 14, 15, 16, 17, 18, 19, 20, 21, 22, 23, 24, 25, 26, 27, 28, 29, 30, 31,
  31, 30, 29, 28, 27, 26, 25, 24, 23, 22, 21, 20, 19, 18, 17, 16, 15, 14, 13, 12, 11, 10, 9, 8, 7, 6, 5, 4, 3, 2, 1, 0,
  0, 1, 2, 3, 4, 5, 6, 7, 8, 9, 10, 11, 12, 13, 14, 15, 16, 17, 18, 19, 20, 21, 22, 23, 24, 25, 26, 27, 28, 29, 30, 31,
  31, 30, 29, 28, 27, 26, 25, 24, 23, 22, 21, 20, 19, 18, 17, 16, 15, 14, 13, 12, 11, 10, 9, 8, 7, 6, 5, 4, 3, 2, 1, 0,
  0, 1, 2, 3, 4, 5, 6, 7, 8, 9, 10, 11, 12, 13, 14, 15, 16, 17, 18, 19, 20, 21, 22, 23, 24, 25, 26, 27, 28, 29, 30, 31,
  0, 0, 0, 0, 0, 0, 0, 0, 0, 0, 0, 0, 0, 0, 0, 0, 0, 0, 0, 0, 0, 0, 0, 0, 0, 0, 0, 0, 0, 0, 0, 0,
  0, 0, 0, 0, 0, 0, 0, 0, 0, 0, 0, 0, 0, 0, 0, 0, 0, 0, 0, 0, 0, 0, 0, 0, 0, 0, 0, 0, 0, 0, 0, 0,
  0, 0, 0, 0, 0, 0, 0, 0, 0, 0, 0, 0, 0, 0, 0, 0, 0, 0, 0, 0, 0, 0, 0, 0, 0, 0, 0, 0, 0, 0, 0, 0
]

/-- State of `EnvelopeGenerator` (src/ym2149-processor.js). -/
structure EnvelopeGenerator where
  counter : Nat
  period : Nat
  position : Int
  shape : Nat
  dataOffset : Nat
deriving DecidableEq, Repr

/-- Constructor state of `EnvelopeGenerator`. -/
def EnvelopeGenerator.init : EnvelopeGenerator :=
  { counter := 0, period := 1, position := -64, shape := 0, dataOffset := 0 }

/-- Embeds `EnvelopeGenerator.setPeriod`. -/
def EnvelopeGenerator.setPeriod (e : EnvelopeGenerator) (p : Nat) : EnvelopeGenerator :=
  { e with period := max 1 p }

/-- Embeds `EnvelopeGenerator.setShape`: mask to 4 bits, look up the waveform
table offset, reset position to -64 and counter to 0. -/
def EnvelopeGenerator.setShape (e : EnvelopeGenerator) (s : Nat) : EnvelopeGenerator :=
  let sh := s &&& 0x0f
  { e with shape := sh, dataOffset := (SHAPE_TO_ENV.getD sh 0) * 128,
           position := -64, counter := 0 }

/-- Embeds `EnvelopeGenerator.trigger` (Sync Buzzer retrigger). -/
def EnvelopeGenerator.trigger (e : EnvelopeGenerator) : EnvelopeGenerator :=
  { e with position := -64, counter := 0 }

/-- Embeds `EnvelopeGenerator.tick`: increment the counter; at the period,
advance `position` and wrap with `position & 63` once it exceeds 63. -/
def EnvelopeGenerator.tick (e : EnvelopeGenerator) : EnvelopeGenerator :=
  let c := e.counter + 1
  if c >= e.period then
    let p := e.position + 1
    let p2 := if p > 63 then ((p.toNat &&& 63 : Nat) : Int) else p
    { e with counter := 0, position := p2 }
  else
    { e with counter := c }

/-- Embeds `EnvelopeGenerator.getLevel`: `ENV_DATA[dataOffset + position + 64] || 0`
(a JavaScript out-of-range index yields `undefined`, hence 0). -/
def EnvelopeGenerator.getLevel (e : EnvelopeGenerator) : Nat :=
  let index : Int := (e.dataOffset : Int) + e.position + 64
  if index < 0 then 0 else ENV_DATA.getD index.toNat 0


/-! ## Core-package envelope generator (`EnvelopeGenerator` in packages/core/src/envelope.ts) -/

/-- State of the core-package `EnvelopeGenerator` (envelope.ts). -/
structure CoreEnvelopeGenerator where
  counter : Nat
  period : Nat
  position : Int
  dataOffset : Nat
  lastShape : Int
deriving DecidableEq, Repr

/-- Embeds `EnvelopeGenerator.tick(ticks)` from envelope.ts: add `ticks` to the
counter, advance the position by `floor(counter / period)` steps, keep the
remainder, and wrap with `(position - 64) % 64` once the position exceeds 63. -/
def CoreEnvelopeGenerator.tick (e : CoreEnvelopeGenerator) (ticks : Nat) : CoreEnvelopeGenerator :=
  if e.period = 0 then e
  else
    let c := e.counter + ticks
    let steps := c / e.period
    let counter2 := c % e.period
    if steps > 0 then
      let p := e.position + (steps : Int)
      let p2 := if p > 63 then (p - 64) % 64 else p
      { e with counter := counter2, position := p2 }
    else
      { e with counter := counter2 }

/-! ## Shared helper lemmas -/

/-- A bitwise or of naturals is zero only when both operands are zero. -/
theorem nat_lor_eq_zero {a b : Nat} (h : a ||| b = 0) : a = 0 ∧ b = 0 := by
  constructor <;>
  · apply Nat.eq_of_testBit_eq
    intro i
    have h2 := congrArg (fun x => Nat.testBit x i) h
    simp only [Nat.testBit_lor, Nat.zero_testBit, Bool.or_eq_false_iff] at h2
    simp [h2.1, h2.2]

/-- One noise tick either keeps the LFSR or applies the shift-feedback update. -/
theorem NoiseGenerator.tick_lfsr (n : NoiseGenerator) :
    (n.tick.2).lfsr = n.lfsr ∨
    (n.tick.2).lfsr = (n.lfsr >>> 1) ||| (((n.lfsr ^^^ (n.lfsr >>> 2)) &&& 1) <<< 16) := by
  unfold NoiseGenerator.tick
  by_cases h1 : (!n.halfTick) = true
  · by_cases h2 : n.counter + 1 >= n.period
    · simp [h1, h2]
    · simp [h1, h2]
  · simp [h1]

/-- The shift-feedback update preserves a non-zero LFSR. -/
theorem lfsr_update_ne_zero {l : Nat} (h : l ≠ 0) :
    (l >>> 1) ||| (((l ^^^ (l >>> 2)) &&& 1) <<< 16) ≠ 0 := by
  intro hz
  obtain ⟨hl, hr⟩ := nat_lor_eq_zero hz
  have hd := Nat.shiftRight_eq_div_pow l 1
  rw [hl] at hd
  have hl1 : l = 1 := by
    have h2 : (2 : Nat) ^ 1 = 2 := by norm_num
    rw [h2] at hd
    omega
  rw [hl1] at hr
  exact absurd hr (by decide)

/-- A non-zero LFSR stays non-zero across one tick. -/
theorem NoiseGenerator.tick_lfsr_ne_zero {n : NoiseGenerator} (h : n.lfsr ≠ 0) :
    (n.tick.2).lfsr ≠ 0 := by
  rcases n.tick_lfsr with h2 | h2 <;> rw [h2]
  · exact h
  · exact lfsr_update_ne_zero h


/-- Ticking any number of times preserves a non-zero LFSR. -/
theorem NoiseGenerator.ticks_lfsr_ne_zero (k : Nat) :
    ∀ (n : NoiseGenerator), n.lfsr ≠ 0 → (n.ticks k).lfsr ≠ 0 := by
  induction k with
  | zero => intro n h; exact h
  | succ k ih =>
    intro n h
    exact ih _ (NoiseGenerator.tick_lfsr_ne_zero h)

/-- C2: after reset establishes `lfsr = 1` (the `reset` message handler and the
constructor both set the noise generator to `NoiseGenerator.init`), the LFSR
value remains non-zero after any number of `tick()` calls, each advance
computing `feedback = (lfsr XOR (lfsr >> 2)) AND 1`, shifting right, and
inserting the feedback at bit 16. -/
theorem c2_lfsr_never_zero (k : Nat) : ((NoiseGenerator.init).ticks k).lfsr ≠ 0 :=
  NoiseGenerator.ticks_lfsr_ne_zero k NoiseGenerator.init (by decide)

/-! ## Envelope operation sequences (claim C3) -/

/-- An operation on the worklet envelope generator: the register writes and
ticks that reach `EnvelopeGenerator` through `handleMessage` and `process`. -/
inductive EnvOp where
  | setShape (s : Nat)
  | trigger
  | setPeriod (p : Nat)
  | tick
deriving DecidableEq, Repr

/-- Apply one envelope operation. -/
def applyEnvOp (e : EnvelopeGenerator) : EnvOp -> EnvelopeGenerator
  | EnvOp.setShape s => e.setShape s
  | EnvOp.trigger => e.trigger
  | EnvOp.setPeriod p => e.setPeriod p
  | EnvOp.tick => e.tick

/-- Apply a sequence of envelope operations starting from the given state. -/
def applyEnvOps (ops : List EnvOp) (e : EnvelopeGenerator) : EnvelopeGenerator :=
  ops.foldl applyEnvOp e

/-- One operation preserves `position` being in `[-64, 63]`. -/
theorem applyEnvOp_position_bounds {e : EnvelopeGenerator}
    (h1 : -64 ≤ e.position) (h2 : e.position ≤ 63) (op : EnvOp) :
    -64 ≤ (applyEnvOp e op).position ∧ (applyEnvOp e op).position ≤ 63 := by
  cases op with
  | setShape s => simp [applyEnvOp, EnvelopeGenerator.setShape]
  | trigger => simp [applyEnvOp, EnvelopeGenerator.trigger]
  | setPeriod p => simp [applyEnvOp, EnvelopeGenerator.setPeriod]; omega
  | tick =>
    simp only [applyEnvOp, EnvelopeGenerator.tick]
    by_cases hc : e.counter + 1 >= e.period
    · simp only [hc, ge_iff_le, if_true]
      by_cases hp : e.position + 1 > 63
      · simp only [hp, if_true]
        have hb : (e.position + 1).toNat &&& 63 ≤ 63 := Nat.and_le_right
        constructor <;> omega
      · simp only [hp, if_false]
        constructor <;> omega
    · simp only [hc, ge_iff_le, if_false]
      constructor <;> omega

/-- The core-package `tick(ticks)` preserves `position` being in `[-64, 63]`. -/
theorem coreTick_position_bounds {e : CoreEnvelopeGenerator}
    (h1 : -64 ≤ e.position) (h2 : e.position ≤ 63) (t : Nat) :
    -64 ≤ (e.tick t).position ∧ (e.tick t).position ≤ 63 := by
  unfold CoreEnvelopeGenerator.tick
  by_cases hp : e.period = 0
  · simp [hp]; omega
  · simp only [hp, if_false]
    by_cases hs : (e.counter + t) / e.period > 0
    · simp only [hs, if_true]
      by_cases hgt : e.position + ((e.counter + t) / e.period : Nat) > 63
      · simp only [hgt, if_true]
        have h64 : (0 : Int) < 64 := by norm_num
        have hnn := Int.emod_nonneg (e.position + ((e.counter + t) / e.period : Nat) - 64)
          (by norm_num : (64 : Int) ≠ 0)
        have hlt := Int.emod_lt_of_pos (e.position + ((e.counter + t) / e.period : Nat) - 64) h64
        constructor <;> omega
      · simp only [hgt, if_false]
        have : (0 : Int) ≤ ((e.counter + t) / e.period : Nat) := Int.natCast_nonneg _
        constructor <;> omega
    · simp only [hs, if_false]
      constructor <;> omega

/-- C3: for every sequence of envelope operations (`setShape`, `trigger`,
`setPeriod`, `tick` in any combination) starting from the constructor state at
position -64, the worklet envelope position stays in `[-64, 63]`; and the
core-package multi-step `tick(ticks)` (which wraps with `(position - 64) mod 64`
whenever the position exceeds 63) also keeps a position in `[-64, 63]` inside
that interval for any tick count. -/
theorem c3_envelope_position_bounds :
    (∀ ops : List EnvOp, -64 ≤ (applyEnvOps ops EnvelopeGenerator.init).position ∧
        (applyEnvOps ops EnvelopeGenerator.init).position ≤ 63) ∧
    (∀ (e : CoreEnvelopeGenerator) (t : Nat), -64 ≤ e.position → e.position ≤ 63 →
        -64 ≤ (e.tick t).position ∧ (e.tick t).position ≤ 63) := by
  constructor
  · intro ops
    suffices hgen : ∀ (e : EnvelopeGenerator), -64 ≤ e.position → e.position ≤ 63 →
        -64 ≤ (applyEnvOps ops e).position ∧ (applyEnvOps ops e).position ≤ 63 by
      exact hgen EnvelopeGenerator.init (by decide) (by decide)
    induction ops with
    | nil => intro e h1 h2; exact ⟨h1, h2⟩
    | cons op rest ih =>
      intro e h1 h2
      have hstep := applyEnvOp_position_bounds h1 h2 op
      exact ih _ hstep.1 hstep.2
  · intro e t h1 h2
    exact coreTick_position_bounds h1 h2 t

/-- Witness for C3 at concrete inputs: three ticks from the initial state, and
one core-package tick of 5 internal clocks from position 10. -/
theorem c3_witness :
    (-64 ≤ (applyEnvOps [EnvOp.tick, EnvOp.tick, EnvOp.tick] EnvelopeGenerator.init).position ∧
      (applyEnvOps [EnvOp.tick, EnvOp.tick, EnvOp.tick] EnvelopeGenerator.init).position ≤ 63) ∧
    (-64 ≤ (({ counter := 0, period := 2, position := 10, dataOffset := 0, lastShape := -1 } :
        CoreEnvelopeGenerator).tick 5).position ∧
      (({ counter := 0, period := 2, position := 10, dataOffset := 0, lastShape := -1 } :
        CoreEnvelopeGenerator).tick 5).position ≤ 63) :=
  ⟨c3_envelope_position_bounds.1 [EnvOp.tick, EnvOp.tick, EnvOp.tick],
   c3_envelope_position_bounds.2 _ 5 (by decide) (by decide)⟩

/-! ## Shape-to-table mapping (claim C4) -/

/-- C4 counterexample: in `SHAPE_TO_ENV` shapes 4 and 5 map to the same table
index (both 1, so shapes 4-7 do not map to distinct indices 1-4), and shape 8
maps to table index 2, which is outside the claimed range 5-9. -/
theorem c4_counterexample :
    SHAPE_TO_ENV.getD 4 0 = SHAPE_TO_ENV.getD 5 0 ∧
    SHAPE_TO_ENV.getD 4 0 = 1 ∧
    SHAPE_TO_ENV.getD 8 0 = 2 := by decide

/-- C4 (amended): the mapping collapses shapes 0-3 to table index 0, collapses
shapes 4-7 to table index 1, and maps shapes 8-15 to the distinct table
indices 2-9 (shape s maps to s - 6). -/
theorem c4_amended :
    (∀ s < 4, SHAPE_TO_ENV.getD s 0 = 0) ∧
    (∀ s < 8, 4 ≤ s → SHAPE_TO_ENV.getD s 0 = 1) ∧
    (∀ s < 16, 8 ≤ s → SHAPE_TO_ENV.getD s 0 = s - 6) ∧
    (∀ s < 16, ∀ s2 < 16, 8 ≤ s → 8 ≤ s2 → s ≠ s2 →
      SHAPE_TO_ENV.getD s 0 ≠ SHAPE_TO_ENV.getD s2 0) := by
  refine ⟨by decide, by decide, by decide, ?_⟩
  have h3 : ∀ s < 16, 8 ≤ s → SHAPE_TO_ENV.getD s 0 = s - 6 := by decide
  intro s hs s2 hs2 h8 h82 hne
  rw [h3 s hs h8, h3 s2 hs2 h82]
  omega

/-- Witness for C4 (amended) at concrete shapes 2, 6, 9 and the pair (8, 15). -/
theorem c4_amended_witness :
    SHAPE_TO_ENV.getD 2 0 = 0 ∧ SHAPE_TO_ENV.getD 6 0 = 1 ∧
    SHAPE_TO_ENV.getD 9 0 = 9 - 6 ∧
    SHAPE_TO_ENV.getD 8 0 ≠ SHAPE_TO_ENV.getD 15 0 :=
  ⟨c4_amended.1 2 (by decide), c4_amended.2.1 6 (by decide) (by decide),
   c4_amended.2.2.1 9 (by decide) (by decide),
   c4_amended.2.2.2 8 (by decide) 15 (by decide) (by decide) (by decide) (by decide)⟩


/-! ## DigiDrum player, SID voice, volume DAC table (src/ym2149-processor.js) -/

/-- State of `DigiDrumPlayer`. `data` is `null` (`none`) when no sample is
loaded; `pos` is a fixed-point position with a 15-bit fraction (`DRUM_PREC`). -/
structure DigiDrumPlayer where
  active : Bool
  data : Option (List Nat)
  pos : Nat
  step : Nat
deriving DecidableEq, Repr

/-- Constructor state of `DigiDrumPlayer`. -/
def DigiDrumPlayer.init : DigiDrumPlayer :=
  { active := false, data := none, pos := 0, step := 0 }

/-- Embeds `DigiDrumPlayer.stop`. -/
def DigiDrumPlayer.stop (_ : DigiDrumPlayer) : DigiDrumPlayer :=
  { active := false, data := none, pos := 0, step := 0 }

/-- Embeds `DigiDrumPlayer.start`: `step = Math.floor((freq << DRUM_PREC) / sampleRate)`. -/
def DigiDrumPlayer.start (_ : DigiDrumPlayer) (sampleData : List Nat)
    (freq sampleRate : Nat) : DigiDrumPlayer :=
  { active := true, data := some sampleData, pos := 0, step := (freq <<< 15) / sampleRate }

/-- Embeds `DigiDrumPlayer.getSample`: returns `null` when inactive or no data,
deactivates at end of sample, otherwise `(data[pos >> 15] / 255) * 0.85`.
The getter mutates `active`, so it returns the updated player as well. -/
def DigiDrumPlayer.getSample (d : DigiDrumPlayer) : Option ℚ × DigiDrumPlayer :=
  if !d.active then (none, d)
  else
    match d.data with
    | none => (none, d)
    | some dat =>
      let idx := d.pos >>> 15
      if dat.length ≤ idx then (none, { d with active := false })
      else (some (((dat.getD idx 0 : ℚ) / 255) * (0.85 : ℚ)), d)

/-- Embeds `DigiDrumPlayer.advance`: advance the fixed-point position and
self-deactivate past the end of the sample. (The source reads `data.length`
here; a playing drum always has data, so the `none` case only keeps `pos`.) -/
def DigiDrumPlayer.advance (d : DigiDrumPlayer) : DigiDrumPlayer :=
  if d.active then
    let pos2 := d.pos + d.step
    match d.data with
    | none => { d with pos := pos2 }
    | some dat =>
      if dat.length ≤ pos2 >>> 15 then { d with pos := pos2, active := false }
      else { d with pos := pos2 }
  else d

/-- State of `SidVoice` (32-bit phase accumulator and step). -/
structure SidVoice where
  active : Bool
  pos : Nat
  step : Nat
  volume : Nat
  isSinus : Bool
deriving DecidableEq, Repr

/-- Constructor state of `SidVoice`. -/
def SidVoice.init : SidVoice :=
  { active := false, pos := 0, step := 0, volume := 0, isSinus := false }

/-- Embeds `SidVoice.stop`: deactivate and clear phase and step (the `volume`
and `isSinus` fields are left untouched by the source). -/
def SidVoice.stop (s : SidVoice) : SidVoice :=
  { s with active := false, pos := 0, step := 0 }

/-- Embeds `SidVoice.start`: cap the frequency at `sampleRate / 4`, compute the
32-bit phase step, keep the running phase when already active. -/
def SidVoice.start (s : SidVoice) (freq volume sampleRate : Nat) (isSinus : Bool) : SidVoice :=
  let cappedFreq : ℚ := min (freq : ℚ) ((sampleRate : ℚ) / 4)
  { active := true,
    pos := if s.active then s.pos else 0,
    step := (⌊cappedFreq * 0x80000000 / (sampleRate : ℚ)⌋).toNat,
    volume := volume &&& 0x0f,
    isSinus := isSinus }

/-- Embeds `VOLUME_TABLE`, the 32-level logarithmic DAC table, as exact
rationals standing for the source's decimal literals. -/
def VOLUME_TABLE : List ℚ := [
  0.0, 0.0046, 0.0055, 0.0066, 0.0078, 0.0093, 0.0111, 0.0132, 0.0156, 0.0186, 0.0221, 0.0263,
  0.0313, 0.0372, 0.0443, 0.0527, 0.0626, 0.0745, 0.0886, 0.1054, 0.1253, 0.149, 0.1772, 0.2107,
  0.2506, 0.298, 0.3544, 0.4215, 0.5013, 0.5962, 0.709, 1.0]

/-! ## Worklet processor state (`YM2149Processor` in src/ym2149-processor.js) -/

/-- A value per PSG channel (channels A, B, C). -/
structure Vec3 (α : Type) where
  a : α
  b : α
  c : α
deriving DecidableEq, Repr

/-- State of `YM2149Processor`: generators, mixer enables, volume registers,
effect players and the fractional tick accumulator. -/
structure YM2149Processor where
  internalClock : Nat
  ticksPerSample : ℚ
  tickAccumulator : ℚ
  tones : Vec3 ToneGenerator
  noise : NoiseGenerator
  envelope : EnvelopeGenerator
  toneEnabled : Vec3 Bool
  noiseEnabled : Vec3 Bool
  volumes : Vec3 Nat
  useEnvelope : Vec3 Bool
  drums : Vec3 DigiDrumPlayer
  drumSamples : List (List Nat)
  sidVoices : Vec3 SidVoice
  syncBuzzerEnabled : Bool
  syncBuzzerPhase : Nat
  syncBuzzerStep : Nat
deriving DecidableEq, Repr

/-- Embeds the `YM2149Processor` constructor for a given audio sample rate:
internal clock 250000 (2 MHz / 8), channel volumes 15, tone enabled, noise
disabled, all effects stopped. -/
def initProcessor (sampleRate : Nat) : YM2149Processor :=
  { internalClock := 250000,
    ticksPerSample := (250000 : ℚ) / (sampleRate : ℚ),
    tickAccumulator := 0,
    tones := ⟨ToneGenerator.init, ToneGenerator.init, ToneGenerator.init⟩,
    noise := NoiseGenerator.init,
    envelope := EnvelopeGenerator.init,
    toneEnabled := ⟨true, true, true⟩,
    noiseEnabled := ⟨false, false, false⟩,
    volumes := ⟨15, 15, 15⟩,
    useEnvelope := ⟨false, false, false⟩,
    drums := ⟨DigiDrumPlayer.init, DigiDrumPlayer.init, DigiDrumPlayer.init⟩,
    drumSamples := [],
    sidVoices := ⟨SidVoice.init, SidVoice.init, SidVoice.init⟩,
    syncBuzzerEnabled := false,
    syncBuzzerPhase := 0,
    syncBuzzerStep := 0 }

/-- Embeds the `reset` branch of `YM2149Processor.handleMessage`: every
generator back to its initial values, channel volumes 0, all drums and SID
voices stopped, Sync Buzzer off, tick accumulator cleared. -/
def handleReset (s : YM2149Processor) : YM2149Processor :=
  { s with
    tones := ⟨{ counter := 0, period := 1, output := 0 },
              { counter := 0, period := 1, output := 0 },
              { counter := 0, period := 1, output := 0 }⟩,
    volumes := ⟨0, 0, 0⟩,
    useEnvelope := ⟨false, false, false⟩,
    toneEnabled := ⟨true, true, true⟩,
    noiseEnabled := ⟨false, false, false⟩,
    drums := ⟨s.drums.a.stop, s.drums.b.stop, s.drums.c.stop⟩,
    sidVoices := ⟨s.sidVoices.a.stop, s.sidVoices.b.stop, s.sidVoices.c.stop⟩,
    noise := { lfsr := 1, counter := 0, period := 16, output := 0, halfTick := false },
    envelope := { counter := 0, period := 1, position := -64, shape := 0, dataOffset := 0 },
    syncBuzzerEnabled := false,
    syncBuzzerPhase := 0,
    syncBuzzerStep := 0,
    tickAccumulator := 0 }

/-- C6 counterexample: reset does not restore the post-construction state. At
sample rate 48000, the constructor sets every channel volume to 15 while reset
sets it to 0, so the state after reset differs from the post-construction one. -/
theorem c6_counterexample :
    (handleReset (initProcessor 48000)).volumes.a = 0 ∧
    (initProcessor 48000).volumes.a = 15 ∧
    handleReset (initProcessor 48000) ≠ initProcessor 48000 := by
  refine ⟨rfl, rfl, fun h => ?_⟩
  have h2 := congrArg (fun s => s.volumes.a) h
  simp [handleReset, initProcessor] at h2

/-- C6 (amended): `reset` is idempotent, and it restores the post-construction
state of the tone, noise and envelope generators, the mixer enables, the
envelope flags, the drum players, the Sync Buzzer state and the tick
accumulator; the channel volumes however become 0 where construction sets 15,
and each SID voice is stopped (inactive, phase and step 0) but keeps its last
`volume` and `isSinus` values instead of the constructor's. -/
theorem c6_reset_idempotent_and_restores (s : YM2149Processor) (sampleRate : Nat) :
    handleReset (handleReset s) = handleReset s ∧
    (handleReset s).tones = (initProcessor sampleRate).tones ∧
    (handleReset s).noise = (initProcessor sampleRate).noise ∧
    (handleReset s).envelope = (initProcessor sampleRate).envelope ∧
    (handleReset s).toneEnabled = (initProcessor sampleRate).toneEnabled ∧
    (handleReset s).noiseEnabled = (initProcessor sampleRate).noiseEnabled ∧
    (handleReset s).useEnvelope = (initProcessor sampleRate).useEnvelope ∧
    (handleReset s).drums = (initProcessor sampleRate).drums ∧
    (handleReset s).syncBuzzerEnabled = false ∧
    (handleReset s).syncBuzzerPhase = 0 ∧
    (handleReset s).syncBuzzerStep = 0 ∧
    (handleReset s).tickAccumulator = 0 ∧
    (handleReset s).volumes = ⟨0, 0, 0⟩ ∧
    (initProcessor sampleRate).volumes = ⟨15, 15, 15⟩ ∧
    (handleReset s).sidVoices =
      ⟨{ active := false, pos := 0, step := 0,
         volume := s.sidVoices.a.volume, isSinus := s.sidVoices.a.isSinus },
       { active := false, pos := 0, step := 0,
         volume := s.sidVoices.b.volume, isSinus := s.sidVoices.b.isSinus },
       { active := false, pos := 0, step := 0,
         volume := s.sidVoices.c.volume, isSinus := s.sidVoices.c.isSinus }⟩ := by
  refine ⟨?_, rfl, rfl, rfl, rfl, rfl, rfl, rfl, rfl, rfl, rfl, rfl, rfl, rfl, rfl⟩
  simp [handleReset, DigiDrumPlayer.stop, SidVoice.stop]


/-! ## Per-sample tick loop and channel mixing (`YM2149Processor.process`,
src/ym2149-processor.js lines 469-526) -/

/-- Loop-carried state of the per-sample inner tick loop: OR-accumulators and
the three generators. -/
structure TickLoopState where
  toneAccum : Vec3 Nat
  noiseAccum : Nat
  tones : Vec3 ToneGenerator
  noise : NoiseGenerator
  envelope : EnvelopeGenerator
deriving DecidableEq, Repr

/-- One iteration of the inner loop: tick the three tones, the noise and the
envelope, OR the tone and noise outputs into the accumulators. -/
def tickLoopStep (r : TickLoopState) : TickLoopState :=
  let ra := r.tones.a.tick
  let rb := r.tones.b.tick
  let rc := r.tones.c.tick
  let rn := r.noise.tick
  { toneAccum := ⟨r.toneAccum.a ||| ra.1, r.toneAccum.b ||| rb.1, r.toneAccum.c ||| rc.1⟩,
    noiseAccum := r.noiseAccum ||| rn.1,
    tones := ⟨ra.2, rb.2, rc.2⟩,
    noise := rn.2,
    envelope := r.envelope.tick }

/-- Run the inner loop for the given number of internal ticks. -/
def runTicks : Nat -> TickLoopState -> TickLoopState
  | 0, r => r
  | k + 1, r => runTicks k (tickLoopStep r)

/-- Embeds the per-channel body of the mixing loop of `process`: DigiDrum
override when a drum sample is available, otherwise the AND-gate of the
OR-accumulated tone and noise against the enable flags, emitting the DAC
value of the envelope level or of `volume << 1`. -/
def mixChannel (toneAccum noiseAccum : Nat) (toneEnabled noiseEnabled : Bool)
    (volume : Nat) (useEnv : Bool) (envLevel : Nat) (drum : DigiDrumPlayer) :
    ℚ × DigiDrumPlayer :=
  let gs := drum.getSample
  match gs.1 with
  | some v => (v, gs.2.advance)
  | none =>
    let toneGate : Bool := (toneAccum != 0) || !toneEnabled
    let noiseGate : Bool := (noiseAccum != 0) || !noiseEnabled
    let gate := toneGate && noiseGate
    if gate then
      let level := if useEnv then envLevel else volume <<< 1
      (VOLUME_TABLE.getD level 0, gs.2)
    else (0, gs.2)

/-- Result of one per-sample step: the three channel outputs, the mixed
output written to the audio buffer, and the updated processor state. -/
structure ProcessResult where
  channelOutputs : Vec3 ℚ
  mixedOutput : ℚ
  state : YM2149Processor
deriving DecidableEq, Repr

/-- Embeds the tick-accumulation and mixing portion of one iteration of the
output loop of `YM2149Processor.process` (source lines 469-526): add
`ticksPerSample` to the floating accumulator, run `floor(accumulator)` internal
ticks with OR-accumulation, keep the fractional remainder, then mix the three
channels. (The Sync-Buzzer and SID phases at lines 449-467 precede this step
and touch neither accumulator nor generators.) -/
def processTickAndMix (s : YM2149Processor) : ProcessResult :=
  let acc := s.tickAccumulator + s.ticksPerSample
  let ticksThisSample : Int := ⌊acc⌋
  let acc2 := acc - (ticksThisSample : ℚ)
  let r := runTicks ticksThisSample.toNat
    { toneAccum := ⟨0, 0, 0⟩, noiseAccum := 0,
      tones := s.tones, noise := s.noise, envelope := s.envelope }
  let envLevel := r.envelope.getLevel
  let ma := mixChannel r.toneAccum.a r.noiseAccum s.toneEnabled.a s.noiseEnabled.a
    s.volumes.a s.useEnvelope.a envLevel s.drums.a
  let mb := mixChannel r.toneAccum.b r.noiseAccum s.toneEnabled.b s.noiseEnabled.b
    s.volumes.b s.useEnvelope.b envLevel s.drums.b
  let mc := mixChannel r.toneAccum.c r.noiseAccum s.toneEnabled.c s.noiseEnabled.c
    s.volumes.c s.useEnvelope.c envLevel s.drums.c
  { channelOutputs := ⟨ma.1, mb.1, mc.1⟩,
    mixedOutput := (ma.1 + mb.1 + mc.1) / 3,
    state := { s with
      tickAccumulator := acc2,
      tones := r.tones, noise := r.noise, envelope := r.envelope,
      drums := ⟨ma.2, mb.2, mc.2⟩ } }

/-! ## Claim C1: specification-side descriptions of the per-sample step -/

/-- Tone generator state after `n` ticks. -/
def iterTone : Nat -> ToneGenerator -> ToneGenerator
  | 0, t => t
  | n + 1, t => iterTone n t.tick.2

/-- Envelope generator state after `n` ticks. -/
def iterEnv : Nat -> EnvelopeGenerator -> EnvelopeGenerator
  | 0, e => e
  | n + 1, e => iterEnv n e.tick

/-- OR-accumulation of a tone generator's output over `n` ticks, as the claim
describes it. -/
def toneOrAccum : Nat -> ToneGenerator -> Bool
  | 0, _ => false
  | n + 1, t => (t.tick.1 != 0) || toneOrAccum n t.tick.2

/-- OR-accumulation of the noise generator's output over `n` ticks. -/
def noiseOrAccum : Nat -> NoiseGenerator -> Bool
  | 0, _ => false
  | n + 1, t => (t.tick.1 != 0) || noiseOrAccum n t.tick.2

/-- A bitwise or is non-zero exactly when one operand is. -/
theorem nat_lor_bne_zero (a b : Nat) : ((a ||| b) != 0) = ((a != 0) || (b != 0)) := by
  rw [Bool.eq_iff_iff]
  simp only [bne_iff_ne, ne_eq, Bool.or_eq_true]
  constructor
  · intro h
    by_contra hc
    push_neg at hc
    rw [hc.1, hc.2] at h
    exact h rfl
  · intro h hz
    obtain ⟨ha, hb⟩ := nat_lor_eq_zero hz
    rcases h with h | h
    · exact h ha
    · exact h hb

/-- The joint inner loop agrees with the independent per-generator iterations
and with the claim's OR-accumulation description. -/
theorem runTicks_spec (n : Nat) : ∀ (r : TickLoopState),
    (runTicks n r).tones.a = iterTone n r.tones.a ∧
    (runTicks n r).tones.b = iterTone n r.tones.b ∧
    (runTicks n r).tones.c = iterTone n r.tones.c ∧
    (runTicks n r).noise = r.noise.ticks n ∧
    (runTicks n r).envelope = iterEnv n r.envelope ∧
    ((runTicks n r).toneAccum.a != 0) = ((r.toneAccum.a != 0) || toneOrAccum n r.tones.a) ∧
    ((runTicks n r).toneAccum.b != 0) = ((r.toneAccum.b != 0) || toneOrAccum n r.tones.b) ∧
    ((runTicks n r).toneAccum.c != 0) = ((r.toneAccum.c != 0) || toneOrAccum n r.tones.c) ∧
    ((runTicks n r).noiseAccum != 0) = ((r.noiseAccum != 0) || noiseOrAccum n r.noise) := by
  induction n with
  | zero =>
    intro r
    refine ⟨rfl, rfl, rfl, rfl, rfl, ?_, ?_, ?_, ?_⟩ <;>
      simp [runTicks, toneOrAccum, noiseOrAccum]
  | succ n ih =>
    intro r
    obtain ⟨h1, h2, h3, h4, h5, h6, h7, h8, h9⟩ := ih (tickLoopStep r)
    refine ⟨?_, ?_, ?_, ?_, ?_, ?_, ?_, ?_, ?_⟩
    · rw [runTicks, h1]; rfl
    · rw [runTicks, h2]; rfl
    · rw [runTicks, h3]; rfl
    · rw [runTicks, h4]; rfl
    · rw [runTicks, h5]; rfl
    · rw [runTicks, h6]
      show (((r.toneAccum.a ||| (r.tones.a.tick.1)) != 0) || toneOrAccum n (r.tones.a.tick.2)) =
        ((r.toneAccum.a != 0) || toneOrAccum (n + 1) r.tones.a)
      rw [nat_lor_bne_zero, toneOrAccum, Bool.or_assoc]
    · rw [runTicks, h7]
      show (((r.toneAccum.b ||| (r.tones.b.tick.1)) != 0) || toneOrAccum n (r.tones.b.tick.2)) =
        ((r.toneAccum.b != 0) || toneOrAccum (n + 1) r.tones.b)
      rw [nat_lor_bne_zero, toneOrAccum, Bool.or_assoc]
    · rw [runTicks, h8]
      show (((r.toneAccum.c ||| (r.tones.c.tick.1)) != 0) || toneOrAccum n (r.tones.c.tick.2)) =
        ((r.toneAccum.c != 0) || toneOrAccum (n + 1) r.tones.c)
      rw [nat_lor_bne_zero, toneOrAccum, Bool.or_assoc]
    · rw [runTicks, h9]
      show (((r.noiseAccum ||| (r.noise.tick.1)) != 0) || noiseOrAccum n (r.noise.tick.2)) =
        ((r.noiseAccum != 0) || noiseOrAccum (n + 1) r.noise)
      rw [nat_lor_bne_zero, noiseOrAccum, Bool.or_assoc]

/-- An inactive drum yields no sample and is left unchanged by the getter. -/
theorem DigiDrumPlayer.getSample_inactive {d : DigiDrumPlayer} (h : d.active = false) :
    d.getSample = (none, d) := by
  unfold DigiDrumPlayer.getSample
  simp [h]

/-- Claim C1's per-sample description of channel A: with no DigiDrum active,
the output is the DAC value selected by the AND-gate of the OR-accumulated
tone and noise over `floor(tickAccumulator + ticksPerSample)` internal ticks. -/
def c1SpecA (s : YM2149Processor) : Prop :=
  (processTickAndMix s).channelOutputs.a =
    (if (toneOrAccum (⌊s.tickAccumulator + s.ticksPerSample⌋).toNat s.tones.a || !s.toneEnabled.a) &&
        (noiseOrAccum (⌊s.tickAccumulator + s.ticksPerSample⌋).toNat s.noise || !s.noiseEnabled.a) then
      VOLUME_TABLE.getD
        (if s.useEnvelope.a then
          (iterEnv (⌊s.tickAccumulator + s.ticksPerSample⌋).toNat s.envelope).getLevel
         else s.volumes.a <<< 1) 0
     else 0)

/-- Claim C1's per-sample description of channel B. -/
def c1SpecB (s : YM2149Processor) : Prop :=
  (processTickAndMix s).channelOutputs.b =
    (if (toneOrAccum (⌊s.tickAccumulator + s.ticksPerSample⌋).toNat s.tones.b || !s.toneEnabled.b) &&
        (noiseOrAccum (⌊s.tickAccumulator + s.ticksPerSample⌋).toNat s.noise || !s.noiseEnabled.b) then
      VOLUME_TABLE.getD
        (if s.useEnvelope.b then
          (iterEnv (⌊s.tickAccumulator + s.ticksPerSample⌋).toNat s.envelope).getLevel
         else s.volumes.b <<< 1) 0
     else 0)

/-- Claim C1's per-sample description of channel C. -/
def c1SpecC (s : YM2149Processor) : Prop :=
  (processTickAndMix s).channelOutputs.c =
    (if (toneOrAccum (⌊s.tickAccumulator + s.ticksPerSample⌋).toNat s.tones.c || !s.toneEnabled.c) &&
        (noiseOrAccum (⌊s.tickAccumulator + s.ticksPerSample⌋).toNat s.noise || !s.noiseEnabled.c) then
      VOLUME_TABLE.getD
        (if s.useEnvelope.c then
          (iterEnv (⌊s.tickAccumulator + s.ticksPerSample⌋).toNat s.envelope).getLevel
         else s.volumes.c <<< 1) 0
     else 0)

/-- Claim C1's accumulator description: the fractional part of the tick
accumulator is carried to the next sample. -/
def c1SpecAccum (s : YM2149Processor) : Prop :=
  (processTickAndMix s).state.tickAccumulator = Int.fract (s.tickAccumulator + s.ticksPerSample)

/-- C1: for every audio sample produced by the PSG core, the per-channel
output (when no DigiDrum is active on that channel) is the AND-gate of the
tone and noise outputs OR-accumulated over `N = floor(tick accumulator)`
internal ticks against the enable flags, emitting `VOLUME_TABLE[envLevel]`
when the envelope flag is set and `VOLUME_TABLE[fixedVolume << 1]` otherwise
(0 when the gate is 0); the fractional part of the tick accumulator is carried
to the next sample. -/
theorem c1_per_sample_output (s : YM2149Processor) :
    (s.drums.a.active = false → c1SpecA s) ∧
    (s.drums.b.active = false → c1SpecB s) ∧
    (s.drums.c.active = false → c1SpecC s) ∧
    c1SpecAccum s := by
  obtain ⟨h1, h2, h3, h4, h5, h6, h7, h8, h9⟩ := runTicks_spec
    (⌊s.tickAccumulator + s.ticksPerSample⌋).toNat
    { toneAccum := ⟨0, 0, 0⟩, noiseAccum := 0,
      tones := s.tones, noise := s.noise, envelope := s.envelope }
  refine ⟨?_, ?_, ?_, ?_⟩
  · intro hd
    unfold c1SpecA processTickAndMix mixChannel
    rw [DigiDrumPlayer.getSample_inactive hd]
    simp only [h5, h6, h9]
    simp [Bool.or_comm]
    rw [apply_ite Prod.fst]
  · intro hd
    unfold c1SpecB processTickAndMix mixChannel
    rw [DigiDrumPlayer.getSample_inactive hd]
    simp only [h5, h7, h9]
    simp [Bool.or_comm]
    rw [apply_ite Prod.fst]
  · intro hd
    unfold c1SpecC processTickAndMix mixChannel
    rw [DigiDrumPlayer.getSample_inactive hd]
    simp only [h5, h8, h9]
    simp [Bool.or_comm]
    rw [apply_ite Prod.fst]
  · unfold c1SpecAccum processTickAndMix
    simp only []
    rw [← Int.self_sub_floor]

/-- Witness for C1 at the freshly constructed processor for a 48 kHz sink
(all drums inactive there). -/
theorem c1_witness :
    c1SpecA (initProcessor 48000) ∧ c1SpecB (initProcessor 48000) ∧
    c1SpecC (initProcessor 48000) ∧ c1SpecAccum (initProcessor 48000) :=
  ⟨(c1_per_sample_output (initProcessor 48000)).1 rfl,
   (c1_per_sample_output (initProcessor 48000)).2.1 rfl,
   (c1_per_sample_output (initProcessor 48000)).2.2.1 rfl,
   (c1_per_sample_output (initProcessor 48000)).2.2.2⟩


/-! ## YM5/YM6 effect decoding (`src/effects.ts`) -/

/-- Embeds `MFP_PREDIV`, the MFP timer prescaler table. -/
def MFP_PREDIV : List Nat := [0, 4, 10, 16, 50, 64, 100, 200]

/-- Embeds `MFP_CLOCK`, the Atari ST MFP clock frequency in Hz. -/
def MFP_CLOCK : Nat := 2457600

/-- A 16-byte YM register frame (registers R0..R15). -/
structure Frame where
  r0 : Nat
  r1 : Nat
  r2 : Nat
  r3 : Nat
  r4 : Nat
  r5 : Nat
  r6 : Nat
  r7 : Nat
  r8 : Nat
  r9 : Nat
  r10 : Nat
  r11 : Nat
  r12 : Nat
  r13 : Nat
  r14 : Nat
  r15 : Nat
deriving DecidableEq, Repr

/-- Register `R[8 + voice]` of a frame (voices are 0-2). -/
def Frame.reg8plus (f : Frame) (voice : Nat) : Nat :=
  match voice with
  | 0 => f.r8
  | 1 => f.r9
  | _ => f.r10

/-- Embeds the `Effect` result type of the decoder as a tagged union. -/
inductive Effect where
  | none
  | sid (voice freq volume : Nat)
  | sinusSid (voice freq volume : Nat)
  | digidrum (voice drumNum freq : Nat)
  | syncBuzzer (freq envShape : Nat)
deriving DecidableEq, Repr

/-- The timer frequency carried by a decoded effect, if any. -/
def Effect.freqOf : Effect -> Option Nat
  | Effect.none => Option.none
  | Effect.sid _ freq _ => some freq
  | Effect.sinusSid _ freq _ => some freq
  | Effect.digidrum _ _ freq => some freq
  | Effect.syncBuzzer freq _ => some freq

/-- Embeds `decodeEffectSlot` (effects.ts): code nibble from bits 7-4, prescaler
index from bits 7-5, `freq = floor(MFP_CLOCK / (prediv * counter))`, and the
YM6 code map (1-3 SID, 5-7 DigiDrum, 9-11 Sinus SID, 13-15 Sync Buzzer,
0/4/8/12 none). -/
def decodeEffectSlot (codeReg predivReg countReg : Nat) (registers : Frame) : Effect :=
  let effectCode := (codeReg >>> 4) &&& 0x0f
  if effectCode = 0 then Effect.none
  else
    let predivIdx := (predivReg >>> 5) &&& 0x07
    let prediv := MFP_PREDIV.getD predivIdx 0
    let counter := countReg
    if prediv = 0 ∨ counter = 0 then Effect.none
    else
      let freq := MFP_CLOCK / (prediv * counter)
      if effectCode = 0x1 ∨ effectCode = 0x2 ∨ effectCode = 0x3 then
        let voice := effectCode - 1
        Effect.sid voice freq (registers.reg8plus voice &&& 0x0f)
      else if effectCode = 0x5 ∨ effectCode = 0x6 ∨ effectCode = 0x7 then
        let voice := effectCode - 5
        Effect.digidrum voice (registers.reg8plus voice &&& 0x1f) freq
      else if effectCode = 0x9 ∨ effectCode = 0xa ∨ effectCode = 0xb then
        let voice := effectCode - 9
        Effect.sinusSid voice freq (registers.reg8plus voice &&& 0x0f)
      else if effectCode = 0xd ∨ effectCode = 0xe ∨ effectCode = 0xf then
        Effect.syncBuzzer freq (registers.r13 &&& 0x0f)
      else Effect.none

/-- Embeds `decodeEffectsYm6`: slot 1 from (R1, R6, R14), slot 2 from (R3, R8, R15). -/
def decodeEffectsYm6 (f : Frame) : Effect × Effect :=
  (decodeEffectSlot f.r1 f.r6 f.r14 f, decodeEffectSlot f.r3 f.r8 f.r15 f)

/-- Embeds `decodeEffectsYm5`: a SID slot selected by `R1[5:4]` and a DigiDrum
slot selected by `R3[5:4]`. -/
def decodeEffectsYm5 (f : Frame) : List Effect :=
  let sidPart : List Effect :=
    let sidCode := (f.r1 >>> 4) &&& 0x03
    if sidCode ≠ 0 then
      let voice := sidCode - 1
      let predivIdx := (f.r6 >>> 5) &&& 0x07
      let count := f.r14
      let prediv := MFP_PREDIV.getD predivIdx 0
      if prediv ≠ 0 ∧ count ≠ 0 then
        [Effect.sid voice (MFP_CLOCK / (prediv * count)) (f.reg8plus voice &&& 0x0f)]
      else []
    else []
  let drumPart : List Effect :=
    let drumCode := (f.r3 >>> 4) &&& 0x03
    if drumCode ≠ 0 then
      let voice := drumCode - 1
      let drumNum := f.reg8plus voice &&& 0x1f
      let predivIdx := (f.r8 >>> 5) &&& 0x07
      let count := f.r15
      let prediv := MFP_PREDIV.getD predivIdx 0
      if prediv ≠ 0 ∧ count ≠ 0 then
        [Effect.digidrum voice drumNum (MFP_CLOCK / (prediv * count))]
      else []
    else []
  sidPart ++ drumPart

/-- C7: for every YM6 effect slot, the decoded timer frequency is
`floor(2457600 / (prescaler * counter))` with the prescaler table
`{0, 4, 10, 16, 50, 64, 100, 200}`; the slot decodes to none whenever the
effect code is 0, the prescaler table entry is 0, or the counter is 0;
reserved codes 4, 8, 12 decode to none; and codes 13-15 decode to a Sync
Buzzer whose envelope shape is `R13 AND 0x0F`. -/
theorem c7_decode_effect_slot (codeReg predivReg countReg : Nat) (f : Frame) :
    ((codeReg >>> 4) &&& 0x0f = 0 ∨
        MFP_PREDIV.getD ((predivReg >>> 5) &&& 0x07) 0 = 0 ∨ countReg = 0 →
      decodeEffectSlot codeReg predivReg countReg f = Effect.none) ∧
    ((codeReg >>> 4) &&& 0x0f = 4 ∨ (codeReg >>> 4) &&& 0x0f = 8 ∨
        (codeReg >>> 4) &&& 0x0f = 12 →
      decodeEffectSlot codeReg predivReg countReg f = Effect.none) ∧
    ((codeReg >>> 4) &&& 0x0f = 13 ∨ (codeReg >>> 4) &&& 0x0f = 14 ∨
        (codeReg >>> 4) &&& 0x0f = 15 →
      MFP_PREDIV.getD ((predivReg >>> 5) &&& 0x07) 0 ≠ 0 → countReg ≠ 0 →
      decodeEffectSlot codeReg predivReg countReg f =
        Effect.syncBuzzer
          (MFP_CLOCK / (MFP_PREDIV.getD ((predivReg >>> 5) &&& 0x07) 0 * countReg))
          (f.r13 &&& 0x0f)) ∧
    (∀ fr, (decodeEffectSlot codeReg predivReg countReg f).freqOf = some fr →
      fr = MFP_CLOCK / (MFP_PREDIV.getD ((predivReg >>> 5) &&& 0x07) 0 * countReg)) := by
  refine ⟨?_, ?_, ?_, ?_⟩
  · intro h
    simp only [decodeEffectSlot]
    split_ifs <;> simp_all
  · intro h
    simp only [decodeEffectSlot]
    split_ifs <;> simp_all <;> omega
  · intro h hp hc
    simp only [decodeEffectSlot]
    split_ifs <;> simp_all <;> omega
  · intro fr h
    simp only [decodeEffectSlot] at h
    split_ifs at h <;> simp_all [Effect.freqOf]

/-- Witness for C7: a no-effect slot, a reserved code-4 slot, and a concrete
Sync Buzzer slot (code 13, prescaler index 1 = 4, counter 100, R13 = 10). -/
theorem c7_witness :
    decodeEffectSlot 0 0 0 ⟨0, 0, 0, 0, 0, 0, 0, 0, 0, 0, 0, 0, 0, 10, 0, 0⟩ = Effect.none ∧
    decodeEffectSlot 0x40 0x20 100 ⟨0, 0, 0, 0, 0, 0, 0, 0, 0, 0, 0, 0, 0, 10, 0, 0⟩ =
      Effect.none ∧
    decodeEffectSlot 0xd0 0x20 100 ⟨0, 0, 0, 0, 0, 0, 0, 0, 0, 0, 0, 0, 0, 10, 0, 0⟩ =
      Effect.syncBuzzer 6144 10 :=
  ⟨(c7_decode_effect_slot 0 0 0 _).1 (Or.inl (by decide)),
   (c7_decode_effect_slot 0x40 0x20 100 _).2.1 (Or.inl (by decide)),
   ((c7_decode_effect_slot 0xd0 0x20 100 _).2.2.1 (Or.inl (by decide))
      (by decide) (by decide)).trans (by decide)⟩


/-! ## YM replayer frame application (`YmReplayer.applyFrame` /
`YmReplayer.applyEffects` in packages/core/src/replayer.ts, with each register
write resolved to its effect on the worklet processor via
`YM2149Processor.handleMessage`) -/

/-- Channel lookup by index (indices are 0-2 wherever this is used). -/
def Vec3.get {α : Type} (v : Vec3 α) (i : Nat) : α :=
  match i with
  | 0 => v.a
  | 1 => v.b
  | _ => v.c

/-- Channel update by index (indices are 0-2 wherever this is used). -/
def Vec3.set {α : Type} (v : Vec3 α) (i : Nat) (x : α) : Vec3 α :=
  match i with
  | 0 => { v with a := x }
  | 1 => { v with b := x }
  | _ => { v with c := x }

/-- Embeds the `setTonePeriod` message. -/
def YM2149Processor.msgSetTonePeriod (s : YM2149Processor) (ch v : Nat) : YM2149Processor :=
  { s with tones := s.tones.set ch ((s.tones.get ch).setPeriod v) }

/-- Embeds the `setNoisePeriod` message. -/
def YM2149Processor.msgSetNoisePeriod (s : YM2149Processor) (v : Nat) : YM2149Processor :=
  { s with noise := s.noise.setPeriod v }

/-- Embeds the `setEnvelopePeriod` message. -/
def YM2149Processor.msgSetEnvelopePeriod (s : YM2149Processor) (v : Nat) : YM2149Processor :=
  { s with envelope := s.envelope.setPeriod v }

/-- Embeds the `setEnvelopeShape` message. -/
def YM2149Processor.msgSetEnvelopeShape (s : YM2149Processor) (v : Nat) : YM2149Processor :=
  { s with envelope := s.envelope.setShape v }

/-- Embeds the `setMixer` message: R7 bits 0-2 are tone disable, 3-5 noise
disable (0 means enabled). -/
def YM2149Processor.msgSetMixer (s : YM2149Processor) (v : Nat) : YM2149Processor :=
  { s with
    toneEnabled := ⟨v &&& 0x01 == 0, v &&& 0x02 == 0, v &&& 0x04 == 0⟩,
    noiseEnabled := ⟨v &&& 0x08 == 0, v &&& 0x10 == 0, v &&& 0x20 == 0⟩ }

/-- Embeds the `setVolume` message: low 4 bits are the level, bit 4 the
envelope flag. -/
def YM2149Processor.msgSetVolume (s : YM2149Processor) (ch v : Nat) : YM2149Processor :=
  { s with
    volumes := s.volumes.set ch (v &&& 0x0f),
    useEnvelope := s.useEnvelope.set ch (v &&& 0x10 != 0) }

/-- Embeds the `startDrum` message (guarded by the stored sample count). -/
def YM2149Processor.msgStartDrum (s : YM2149Processor) (ch drumNum freq sampleRate : Nat) :
    YM2149Processor :=
  if drumNum < s.drumSamples.length then
    { s with drums :=
        s.drums.set ch ((s.drums.get ch).start (s.drumSamples.getD drumNum []) freq sampleRate) }
  else s

/-- Embeds the `stopDrum` message. -/
def YM2149Processor.msgStopDrum (s : YM2149Processor) (ch : Nat) : YM2149Processor :=
  { s with drums := s.drums.set ch ((s.drums.get ch).stop) }

/-- Embeds the `startSid` message. -/
def YM2149Processor.msgStartSid (s : YM2149Processor)
    (ch freq volume sampleRate : Nat) (isSinus : Bool) : YM2149Processor :=
  { s with sidVoices :=
      s.sidVoices.set ch ((s.sidVoices.get ch).start freq volume sampleRate isSinus) }

/-- Embeds the `stopSid` message. -/
def YM2149Processor.msgStopSid (s : YM2149Processor) (ch : Nat) : YM2149Processor :=
  { s with sidVoices := s.sidVoices.set ch ((s.sidVoices.get ch).stop) }

/-- Embeds the `startSyncBuzzer` message: cap the frequency at
`sampleRate / 4`, set the 32-bit phase step, restart the phase. -/
def YM2149Processor.msgStartSyncBuzzer (s : YM2149Processor) (freq sampleRate : Nat) :
    YM2149Processor :=
  let cappedBuzzerFreq : ℚ := min (freq : ℚ) ((sampleRate : ℚ) / 4)
  { s with
    syncBuzzerStep := (⌊cappedBuzzerFreq * 0x80000000 / (sampleRate : ℚ)⌋).toNat,
    syncBuzzerPhase := 0,
    syncBuzzerEnabled := true }

/-- Embeds the `stopSyncBuzzer` message. -/
def YM2149Processor.msgStopSyncBuzzer (s : YM2149Processor) : YM2149Processor :=
  { s with syncBuzzerEnabled := false, syncBuzzerPhase := 0, syncBuzzerStep := 0 }

/-- The YM file format tag relevant to effect decoding. -/
inductive YmFormat where
  | ym2
  | ym3
  | ym3b
  | ym5
  | ym6
deriving DecidableEq, Repr

/-- The `YmReplayer` state that `applyFrame` touches: the PSG plus the
effect-tracking flags. -/
structure YmReplayerState where
  psg : YM2149Processor
  activeSid : Vec3 Bool
  activeDrum : Vec3 Bool
  activeSyncBuzzer : Bool
deriving DecidableEq, Repr

/-- Embeds the body of the effect loop of `applyEffects`: start the decoded
effect (SID and Sync Buzzer only when their frequency is non-zero, DigiDrum
additionally only when the file carries digidrums) and record it as active
this frame. The folded state is `(psg, sidActiveThisFrame,
drumActiveThisFrame, syncBuzzerActiveThisFrame)`. -/
def applyOneEffect (digidrumsCount sampleRate : Nat)
    (st : YM2149Processor × Vec3 Bool × Vec3 Bool × Bool) (e : Effect) :
    YM2149Processor × Vec3 Bool × Vec3 Bool × Bool :=
  match e with
  | Effect.none => st
  | Effect.sid voice freq volume =>
    if freq ≠ 0 then
      (st.1.msgStartSid voice freq volume sampleRate false,
        st.2.1.set voice true, st.2.2.1, st.2.2.2)
    else st
  | Effect.sinusSid voice freq volume =>
    if freq ≠ 0 then
      (st.1.msgStartSid voice freq volume sampleRate true,
        st.2.1.set voice true, st.2.2.1, st.2.2.2)
    else st
  | Effect.digidrum voice drumNum freq =>
    if freq ≠ 0 ∧ 0 < digidrumsCount then
      (st.1.msgStartDrum voice drumNum freq sampleRate,
        st.2.1, st.2.2.1.set voice true, st.2.2.2)
    else st
  | Effect.syncBuzzer freq _ =>
    if freq ≠ 0 then
      (st.1.msgStartSyncBuzzer freq sampleRate, st.2.1, st.2.2.1, true)
    else st

/-- Embeds `YmReplayer.applyEffects`: no effects for YM2/YM3/YM3b; otherwise
decode the frame (two slots for YM6, the YM5 pair otherwise), start the
decoded effects, stop SID voices and the Sync Buzzer that are no longer
requested (drums play to completion; the stop call is commented out in the
source), and update the tracking flags (`activeDrum` is not updated by the
source). -/
def applyEffects (fmt : YmFormat) (digidrumsCount sampleRate : Nat)
    (rs : YmReplayerState) (f : Frame) : YmReplayerState :=
  match fmt with
  | YmFormat.ym2 => rs
  | YmFormat.ym3 => rs
  | YmFormat.ym3b => rs
  | fmt =>
    let effects : List Effect :=
      if fmt = YmFormat.ym6 then [(decodeEffectsYm6 f).1, (decodeEffectsYm6 f).2]
      else decodeEffectsYm5 f
    let folded := effects.foldl (applyOneEffect digidrumsCount sampleRate)
      (rs.psg, ⟨false, false, false⟩, ⟨false, false, false⟩, false)
    let sidThis := folded.2.1
    let buzzThis := folded.2.2.2
    let psg2 := if rs.activeSid.a && !sidThis.a then folded.1.msgStopSid 0 else folded.1
    let psg3 := if rs.activeSid.b && !sidThis.b then psg2.msgStopSid 1 else psg2
    let psg4 := if rs.activeSid.c && !sidThis.c then psg3.msgStopSid 2 else psg3
    let psg5 := if rs.activeSyncBuzzer && !buzzThis then psg4.msgStopSyncBuzzer else psg4
    { psg := psg5, activeSid := sidThis, activeDrum := rs.activeDrum,
      activeSyncBuzzer := buzzThis }

/-- Embeds `YmReplayer.applyFrame`: write tone periods (`|| 1`), noise period,
mixer, volumes and envelope period from the 16-byte frame; write the envelope
shape only when `R13 != 0xFF`; then decode and apply the special effects. -/
def applyFrame (fmt : YmFormat) (digidrumsCount sampleRate : Nat)
    (rs : YmReplayerState) (f : Frame) : YmReplayerState :=
  let periodA := f.r0 ||| ((f.r1 &&& 0x0f) <<< 8)
  let s1 := rs.psg.msgSetTonePeriod 0 (if periodA = 0 then 1 else periodA)
  let periodB := f.r2 ||| ((f.r3 &&& 0x0f) <<< 8)
  let s2 := s1.msgSetTonePeriod 1 (if periodB = 0 then 1 else periodB)
  let periodC := f.r4 ||| ((f.r5 &&& 0x0f) <<< 8)
  let s3 := s2.msgSetTonePeriod 2 (if periodC = 0 then 1 else periodC)
  let noisePeriod := f.r6 &&& 0x1f
  let s4 := s3.msgSetNoisePeriod (if noisePeriod = 0 then 1 else noisePeriod)
  let s5 := s4.msgSetMixer f.r7
  let s6 := s5.msgSetVolume 0 f.r8
  let s7 := s6.msgSetVolume 1 f.r9
  let s8 := s7.msgSetVolume 2 f.r10
  let envPeriod := f.r11 ||| (f.r12 <<< 8)
  let s9 := s8.msgSetEnvelopePeriod (if envPeriod = 0 then 1 else envPeriod)
  let s10 := if f.r13 ≠ 0xff then s9.msgSetEnvelopeShape (f.r13 &&& 0x0f) else s9
  applyEffects fmt digidrumsCount sampleRate { rs with psg := s10 } f

/-- Starting an effect never touches the envelope generator. -/
theorem applyOneEffect_envelope (digidrumsCount sampleRate : Nat)
    (st : YM2149Processor × Vec3 Bool × Vec3 Bool × Bool) (e : Effect) :
    (applyOneEffect digidrumsCount sampleRate st e).1.envelope = st.1.envelope := by
  cases e with
  | none => rfl
  | sid voice freq volume =>
    simp only [applyOneEffect]
    split_ifs <;> rfl
  | sinusSid voice freq volume =>
    simp only [applyOneEffect]
    split_ifs <;> rfl
  | digidrum voice drumNum freq =>
    simp only [applyOneEffect, YM2149Processor.msgStartDrum]
    split_ifs <;> rfl
  | syncBuzzer freq env =>
    simp only [applyOneEffect]
    split_ifs <;> rfl

/-- Folding the effect loop never touches the envelope generator. -/
theorem foldl_applyOneEffect_envelope (digidrumsCount sampleRate : Nat) :
    ∀ (effects : List Effect) (st : YM2149Processor × Vec3 Bool × Vec3 Bool × Bool),
    (effects.foldl (applyOneEffect digidrumsCount sampleRate) st).1.envelope = st.1.envelope := by
  intro effects
  induction effects with
  | nil => intro st; rfl
  | cons e rest ih =>
    intro st
    rw [List.foldl_cons, ih, applyOneEffect_envelope]

/-- `applyEffects` never touches the envelope generator. -/
theorem applyEffects_envelope (fmt : YmFormat) (digidrumsCount sampleRate : Nat)
    (rs : YmReplayerState) (f : Frame) :
    (applyEffects fmt digidrumsCount sampleRate rs f).psg.envelope = rs.psg.envelope := by
  cases fmt <;> simp only [applyEffects] <;> try rfl
  all_goals
    split_ifs <;>
      simp_all [YM2149Processor.msgStopSid, YM2149Processor.msgStopSyncBuzzer,
        foldl_applyOneEffect_envelope, applyOneEffect_envelope]

/-- C5: applying a YM register frame with `R13 = 0xFF` leaves the envelope
generator's position, counter, shape and data offset unchanged, while any
other `R13` value sets the envelope shape to `R13 AND 0x0F` and resets the
envelope position to -64 and its counter to 0. -/
theorem c5_r13_envelope (fmt : YmFormat) (digidrumsCount sampleRate : Nat)
    (rs : YmReplayerState) (f : Frame) :
    (f.r13 = 0xff →
      (applyFrame fmt digidrumsCount sampleRate rs f).psg.envelope.position =
        rs.psg.envelope.position ∧
      (applyFrame fmt digidrumsCount sampleRate rs f).psg.envelope.counter =
        rs.psg.envelope.counter ∧
      (applyFrame fmt digidrumsCount sampleRate rs f).psg.envelope.shape =
        rs.psg.envelope.shape ∧
      (applyFrame fmt digidrumsCount sampleRate rs f).psg.envelope.dataOffset =
        rs.psg.envelope.dataOffset) ∧
    (f.r13 ≠ 0xff →
      (applyFrame fmt digidrumsCount sampleRate rs f).psg.envelope.position = -64 ∧
      (applyFrame fmt digidrumsCount sampleRate rs f).psg.envelope.counter = 0 ∧
      (applyFrame fmt digidrumsCount sampleRate rs f).psg.envelope.shape = f.r13 &&& 0x0f) := by
  constructor
  · intro h13
    simp only [applyFrame, applyEffects_envelope, h13]
    simp [YM2149Processor.msgSetEnvelopePeriod, YM2149Processor.msgSetVolume,
      YM2149Processor.msgSetMixer, YM2149Processor.msgSetNoisePeriod,
      YM2149Processor.msgSetTonePeriod, EnvelopeGenerator.setPeriod]
  · intro h13
    simp only [applyFrame, applyEffects_envelope, h13]
    simp [h13, YM2149Processor.msgSetEnvelopeShape, EnvelopeGenerator.setShape,
      YM2149Processor.msgSetEnvelopePeriod, YM2149Processor.msgSetVolume,
      YM2149Processor.msgSetMixer, YM2149Processor.msgSetNoisePeriod,
      YM2149Processor.msgSetTonePeriod, EnvelopeGenerator.setPeriod]
    rw [Nat.and_assoc]
    simp

/-- Witness for C5: a YM6 frame of zeros with `R13 = 0xFF` leaves the envelope
state of a fresh replayer unchanged, and the same frame with `R13 = 8` resets
position to -64, counter to 0 and sets shape 8. -/
theorem c5_witness :
    ((applyFrame YmFormat.ym6 0 48000
        ⟨initProcessor 48000, ⟨false, false, false⟩, ⟨false, false, false⟩, false⟩
        ⟨0, 0, 0, 0, 0, 0, 0, 0, 0, 0, 0, 0, 0, 0xff, 0, 0⟩).psg.envelope.position =
      (initProcessor 48000).envelope.position ∧
     (applyFrame YmFormat.ym6 0 48000
        ⟨initProcessor 48000, ⟨false, false, false⟩, ⟨false, false, false⟩, false⟩
        ⟨0, 0, 0, 0, 0, 0, 0, 0, 0, 0, 0, 0, 0, 0xff, 0, 0⟩).psg.envelope.counter =
      (initProcessor 48000).envelope.counter ∧
     (applyFrame YmFormat.ym6 0 48000
        ⟨initProcessor 48000, ⟨false, false, false⟩, ⟨false, false, false⟩, false⟩
        ⟨0, 0, 0, 0, 0, 0, 0, 0, 0, 0, 0, 0, 0, 0xff, 0, 0⟩).psg.envelope.shape =
      (initProcessor 48000).envelope.shape ∧
     (applyFrame YmFormat.ym6 0 48000
        ⟨initProcessor 48000, ⟨false, false, false⟩, ⟨false, false, false⟩, false⟩
        ⟨0, 0, 0, 0, 0, 0, 0, 0, 0, 0, 0, 0, 0, 0xff, 0, 0⟩).psg.envelope.dataOffset =
      (initProcessor 48000).envelope.dataOffset) ∧
    ((applyFrame YmFormat.ym6 0 48000
        ⟨initProcessor 48000, ⟨false, false, false⟩, ⟨false, false, false⟩, false⟩
        ⟨0, 0, 0, 0, 0, 0, 0, 0, 0, 0, 0, 0, 0, 8, 0, 0⟩).psg.envelope.position = -64 ∧
     (applyFrame YmFormat.ym6 0 48000
        ⟨initProcessor 48000, ⟨false, false, false⟩, ⟨false, false, false⟩, false⟩
        ⟨0, 0, 0, 0, 0, 0, 0, 0, 0, 0, 0, 0, 0, 8, 0, 0⟩).psg.envelope.counter = 0 ∧
     (applyFrame YmFormat.ym6 0 48000
        ⟨initProcessor 48000, ⟨false, false, false⟩, ⟨false, false, false⟩, false⟩
        ⟨0, 0, 0, 0, 0, 0, 0, 0, 0, 0, 0, 0, 0, 8, 0, 0⟩).psg.envelope.shape = 8 &&& 0x0f) :=
  ⟨(c5_r13_envelope YmFormat.ym6 0 48000 _ _).1 rfl,
   (c5_r13_envelope YmFormat.ym6 0 48000 _ _).2 (by decide)⟩


/-! ## PT3 sample frames and the noise/envelope offset branch
(`Pt3Player.generateRegisters`, packages/core/src/pt3/player.ts lines 561-579) -/

/-- Embeds `Pt3SampleFrame` (pt3/types.ts): one 4-byte sample frame.
`noiseOffset` is the signed reading of the 5-bit N field, `envelopeOffset` the
raw unsigned reading of the same bits (pt3/replayer.ts `parseSampleFrame`). -/
structure Pt3SampleFrame where
  amplitude : Nat
  toneOffset : Int
  accumulateTone : Bool
  accumulateNoise : Bool
  toneMask : Bool
  noiseMask : Bool
  noiseOffset : Int
  envelopeMask : Bool
  amplitudeSlide : Int
  amplitudeSlideEnabled : Bool
  envelopeOffset : Nat
deriving DecidableEq, Repr

/-- Embeds the noiseMask branch of `generateRegisters` for one enabled channel
on one tick. Input: the current sample frame and the channel's
`currentEnvelopeSliding` / `currentNoiseSliding`. Output:
`(contribution added to addToEnv, value assigned to addToNoise (none when the
branch does not assign it), new currentEnvelopeSliding, new
currentNoiseSliding)`. -/
def noiseEnvelopeStep (sampleFrame : Pt3SampleFrame)
    (currentEnvelopeSliding currentNoiseSliding : Int) :
    Int × Option Int × Int × Int :=
  if sampleFrame.noiseMask then
    let envValue := sampleFrame.noiseOffset
    if sampleFrame.accumulateNoise then
      let s2 := currentEnvelopeSliding + envValue
      (s2, Option.none, s2, currentNoiseSliding)
    else
      (envValue, Option.none, currentEnvelopeSliding, currentNoiseSliding)
  else
    let noiseValue : Int := ((sampleFrame.envelopeOffset &&& 0x1f : Nat) : Int) +
      currentNoiseSliding
    if sampleFrame.accumulateNoise then
      (0, some noiseValue, currentEnvelopeSliding, noiseValue)
    else
      (0, some noiseValue, currentEnvelopeSliding, currentNoiseSliding)

/-- C8 counterexample: a frame with `noiseMask` set, N field 0 and
`accumulateNoise` clear (with zero sliding state) contributes zero to the
envelope offset and does not assign `addToNoise`, so neither of the two
per-tick channel contributions is nonzero: the claimed "exactly one is
nonzero" fails. -/
theorem c8_counterexample :
    (noiseEnvelopeStep ⟨0, 0, false, false, false, true, 0, false, 0, false, 0⟩ 0 0).1 = 0 ∧
    ((noiseEnvelopeStep ⟨0, 0, false, false, false, true, 0, false, 0, false, 0⟩ 0 0).2.1).getD 0
      = 0 ∧
    ¬ (((noiseEnvelopeStep ⟨0, 0, false, false, false, true, 0, false, 0, false, 0⟩ 0 0).1 ≠ 0 ∧
        ((noiseEnvelopeStep ⟨0, 0, false, false, false, true, 0, false, 0, false, 0⟩ 0 0).2.1).getD 0
          = 0) ∨
       ((noiseEnvelopeStep ⟨0, 0, false, false, false, true, 0, false, 0, false, 0⟩ 0 0).1 = 0 ∧
        ((noiseEnvelopeStep ⟨0, 0, false, false, false, true, 0, false, 0, false, 0⟩ 0 0).2.1).getD 0
          ≠ 0)) := by decide

/-- C8 (amended): when `noiseMask` is set the 5-bit N field contributes an
envelope-period offset (accumulated into `currentEnvelopeSliding` when
`accumulateNoise` is set) and `addToNoise` is not assigned; otherwise the N
field plus `currentNoiseSliding` is assigned to `addToNoise` (and accumulated
into the sliding state when `accumulateNoise` is set) and the envelope
contribution is zero; at most one of the two per-tick channel contributions is
nonzero. -/
theorem c8_noise_env_branch (fr : Pt3SampleFrame) (es ns : Int) :
    (fr.noiseMask = true →
      (noiseEnvelopeStep fr es ns).2.1 = Option.none ∧
      (noiseEnvelopeStep fr es ns).1 =
        (if fr.accumulateNoise then es + fr.noiseOffset else fr.noiseOffset) ∧
      (noiseEnvelopeStep fr es ns).2.2.1 =
        (if fr.accumulateNoise then es + fr.noiseOffset else es) ∧
      (noiseEnvelopeStep fr es ns).2.2.2 = ns) ∧
    (fr.noiseMask = false →
      (noiseEnvelopeStep fr es ns).1 = 0 ∧
      (noiseEnvelopeStep fr es ns).2.1 =
        some (((fr.envelopeOffset &&& 0x1f : Nat) : Int) + ns) ∧
      (noiseEnvelopeStep fr es ns).2.2.2 =
        (if fr.accumulateNoise then ((fr.envelopeOffset &&& 0x1f : Nat) : Int) + ns else ns) ∧
      (noiseEnvelopeStep fr es ns).2.2.1 = es) ∧
    ¬ ((noiseEnvelopeStep fr es ns).1 ≠ 0 ∧
       ((noiseEnvelopeStep fr es ns).2.1).getD 0 ≠ 0) := by
  unfold noiseEnvelopeStep
  by_cases hm : fr.noiseMask <;> by_cases ha : fr.accumulateNoise <;> simp [hm, ha]

/-- Witness for C8 (amended): a noise-masked accumulating frame with N = 3
from envelope sliding 5, and a non-masked frame with N = 7 from noise
sliding 2. -/
theorem c8_witness :
    ((noiseEnvelopeStep ⟨0, 0, false, true, false, true, 3, false, 0, false, 3⟩ 5 0).2.1 =
      Option.none ∧
     (noiseEnvelopeStep ⟨0, 0, false, true, false, true, 3, false, 0, false, 3⟩ 5 0).1 =
      (if true then (5 : Int) + 3 else 3) ∧
     (noiseEnvelopeStep ⟨0, 0, false, true, false, true, 3, false, 0, false, 3⟩ 5 0).2.2.1 =
      (if true then (5 : Int) + 3 else 5) ∧
     (noiseEnvelopeStep ⟨0, 0, false, true, false, true, 3, false, 0, false, 3⟩ 5 0).2.2.2 = 0) ∧
    ((noiseEnvelopeStep ⟨0, 0, false, false, false, false, 7, false, 0, false, 7⟩ 0 2).1 = 0 ∧
     (noiseEnvelopeStep ⟨0, 0, false, false, false, false, 7, false, 0, false, 7⟩ 0 2).2.1 =
      some (((7 &&& 0x1f : Nat) : Int) + 2) ∧
     (noiseEnvelopeStep ⟨0, 0, false, false, false, false, 7, false, 0, false, 7⟩ 0 2).2.2.2 =
      (if false then ((7 &&& 0x1f : Nat) : Int) + 2 else 2) ∧
     (noiseEnvelopeStep ⟨0, 0, false, false, false, false, 7, false, 0, false, 7⟩ 0 2).2.2.1 = 0) :=
  ⟨(c8_noise_env_branch ⟨0, 0, false, true, false, true, 3, false, 0, false, 3⟩ 5 0).1 rfl,
   (c8_noise_env_branch ⟨0, 0, false, false, false, false, 7, false, 0, false, 7⟩ 0 2).2.1 rfl⟩

/-! ## PT3 minimum file size (`parsePt3File`, packages/core/src/pt3/replayer.ts) -/

/-- Embeds `PT3_MIN_SIZE = 0xc9 + 1` (header plus at least one position). -/
def PT3_MIN_SIZE : Nat := 0xc9 + 1

/-- Embeds the minimum-size gate of `parsePt3File`: the parse throws
"PT3 file too small" exactly when this is true. -/
def pt3FileTooSmall (len : Nat) : Bool := decide (len < PT3_MIN_SIZE)

/-- C9 counterexample: a 201-byte input is rejected by the minimum-size check
even though the claim says inputs of 201 or more bytes pass it
(`PT3_MIN_SIZE` is 202, not 201). -/
theorem c9_counterexample : pt3FileTooSmall 201 = true ∧ 201 ≤ 201 := by decide

/-- C9 (amended): `parsePt3File` fails with the malformed-file (too small)
error exactly for inputs shorter than 202 bytes: every input of fewer than
202 bytes is rejected and an input of 202 or more bytes is not rejected by
the minimum-size check. -/
theorem c9_min_size_gate (len : Nat) : pt3FileTooSmall len = true ↔ len < 202 := by
  simp [pt3FileTooSmall, PT3_MIN_SIZE]


/-! ## PT3 pattern interpreter (`Pt3Player.interpretPattern` /
`Pt3Player.getPatternByte`, packages/core/src/pt3/player.ts) -/

/-- Embeds `Pt3Sample` as far as the player uses it here: loop position,
length, frame list. -/
structure Pt3Sample where
  loopPosition : Nat
  length : Nat
  frames : List Pt3SampleFrame
deriving DecidableEq, Repr

/-- Embeds `Pt3Ornament`: loop position, length, signed note offsets. -/
structure Pt3Ornament where
  loopPosition : Nat
  length : Nat
  offsets : List Int
deriving DecidableEq, Repr

/-- The immutable player inputs used by the pattern interpreter: the file's
sample and ornament banks and the selected tone table. -/
structure Pt3Env where
  samples : List Pt3Sample
  ornaments : List Pt3Ornament
  toneTable : List Nat
deriving DecidableEq, Repr

/-- Embeds `Pt3ChannelState` (pt3/types.ts) together with the pattern-data
reference that `initPosition` attaches to the channel. -/
structure Pt3ChannelState where
  addressInPattern : Nat
  ornamentIndex : Nat
  sampleIndex : Nat
  tone : Int
  loopOrnamentPosition : Nat
  ornamentLength : Nat
  positionInOrnament : Nat
  loopSamplePosition : Nat
  sampleLength : Nat
  positionInSample : Nat
  volume : Nat
  numberOfNotesToSkip : Nat
  note : Nat
  slideToNote : Nat
  amplitude : Nat
  envelopeEnabled : Bool
  enabled : Bool
  simpleGliss : Bool
  currentAmplitudeSliding : Int
  currentNoiseSliding : Int
  currentEnvelopeSliding : Int
  tonSlideCount : Int
  currentOnOff : Nat
  onOffDelay : Nat
  offOnDelay : Nat
  tonSlideDelay : Nat
  currentTonSliding : Int
  tonAccumulator : Int
  tonSlideStep : Int
  tonDelta : Int
  noteSkipCounter : Int
  patternData : List Nat
deriving DecidableEq, Repr

/-- Embeds the global part of `Pt3PlayerState` (pt3/types.ts). -/
structure Pt3GlobalState where
  version : Nat
  envBaseLo : Nat
  envBaseHi : Nat
  curEnvSlide : Int
  envSlideAdd : Int
  curEnvDelay : Nat
  envDelay : Nat
  newEnvelopeShape : Nat
  noiseBase : Nat
  delay : Nat
  addToNoise : Int
  delayCounter : Int
  currentPosition : Nat
deriving DecidableEq, Repr

/-- Embeds `createChannelState` (pt3/types.ts); `patternData` starts empty
until `initPosition` attaches a pattern. -/
def createChannelState : Pt3ChannelState :=
  { addressInPattern := 0, ornamentIndex := 0, sampleIndex := 0, tone := 0,
    loopOrnamentPosition := 0, ornamentLength := 0, positionInOrnament := 0,
    loopSamplePosition := 0, sampleLength := 0, positionInSample := 0,
    volume := 15, numberOfNotesToSkip := 0, note := 0, slideToNote := 0,
    amplitude := 0, envelopeEnabled := false, enabled := false,
    simpleGliss := false, currentAmplitudeSliding := 0, currentNoiseSliding := 0,
    currentEnvelopeSliding := 0, tonSlideCount := 0, currentOnOff := 0,
    onOffDelay := 0, offOnDelay := 0, tonSlideDelay := 0, currentTonSliding := 0,
    tonAccumulator := 0, tonSlideStep := 0, tonDelta := 0, noteSkipCounter := 1,
    patternData := [] }

/-- Embeds the global part of `createPlayerState` (pt3/types.ts). -/
def createPlayerStateGlobals (version delay : Nat) : Pt3GlobalState :=
  { version := version, envBaseLo := 0, envBaseHi := 0, curEnvSlide := 0,
    envSlideAdd := 0, curEnvDelay := 0, envDelay := 0, newEnvelopeShape := 0xff,
    noiseBase := 0, delay := delay, addToNoise := 0, delayCounter := 1,
    currentPosition := 0 }

/-- Embeds `Pt3Player.getPatternByte`: reading at or past the end of the
stored pattern data (or with no pattern attached, the empty list here)
yields byte 0. -/
def getPatternByte (patternData : List Nat) (offset : Nat) : Nat :=
  if patternData.length ≤ offset then 0 else patternData.getD offset 0

/-- Embeds `Pt3Player.setSample`: record index, loop position and length when
the sample number is in range. -/
def setSample (env : Pt3Env) (chan : Pt3ChannelState) (sampleNum : Nat) : Pt3ChannelState :=
  if sampleNum < env.samples.length then
    let sample := env.samples.getD sampleNum ⟨0, 0, []⟩
    { chan with
      sampleIndex := sampleNum, loopSamplePosition := sample.loopPosition,
      sampleLength := sample.length }
  else chan

/-- Embeds `Pt3Player.setOrnament`. -/
def setOrnament (env : Pt3Env) (chan : Pt3ChannelState) (ornamentNum : Nat) : Pt3ChannelState :=
  if ornamentNum < env.ornaments.length then
    let ornament := env.ornaments.getD ornamentNum ⟨0, 0, []⟩
    { chan with
      ornamentIndex := ornamentNum, loopOrnamentPosition := ornament.loopPosition,
      ornamentLength := ornament.length }
  else chan

/-- Embeds one iteration of the row-parsing `while` loop of
`interpretPattern`: dispatch on the byte at the cursor, pushing effect codes
0x01-0x09 for the post-row parameter pass. The returned flag is the loop's
`quit` variable: byte 0x00 ends the row without advancing the cursor; 0xD0,
0xC0 and note bytes end it after advancing past themselves; every other byte
advances the cursor and continues the loop. -/
def rowBody (env : Pt3Env) (byte : Nat) (g : Pt3GlobalState) (chan : Pt3ChannelState)
    (effects : List Nat) : Pt3GlobalState × Pt3ChannelState × List Nat × Bool :=
  (
    if byte = 0x00 then
      (g, chan, effects, true)
    else if 0xf0 ≤ byte then
      let chan1 := setOrnament env chan (byte - 0xf0)
      let chan2 := { chan1 with addressInPattern := chan1.addressInPattern + 1 }
      let sampleByte := getPatternByte chan2.patternData chan2.addressInPattern
      let chan3 := setSample env chan2 (sampleByte / 2)
      let chan4 := { chan3 with envelopeEnabled := false, positionInOrnament := 0 }
      (g, { chan4 with addressInPattern := chan4.addressInPattern + 1 }, effects, false)
    else if 0xd1 ≤ byte ∧ byte ≤ 0xef then
      let chan1 := setSample env chan (byte - 0xd0)
      (g, { chan1 with addressInPattern := chan1.addressInPattern + 1 }, effects, false)
    else if byte = 0xd0 then
      (g, { chan with addressInPattern := chan.addressInPattern + 1 }, effects, true)
    else if 0xc1 ≤ byte ∧ byte ≤ 0xcf then
      (g, { chan with
        volume := byte - 0xc0,
        addressInPattern := chan.addressInPattern + 1 }, effects, false)
    else if byte = 0xc0 then
      (g, { chan with
        positionInSample := 0, currentAmplitudeSliding := 0,
        currentNoiseSliding := 0, currentEnvelopeSliding := 0, positionInOrnament := 0,
        tonSlideCount := 0, currentTonSliding := 0, tonAccumulator := 0, currentOnOff := 0,
        enabled := false, addressInPattern := chan.addressInPattern + 1 }, effects, true)
    else if 0xb2 ≤ byte ∧ byte ≤ 0xbf then
      let g1 := { g with newEnvelopeShape := byte - 0xb1 }
      let chan1 := { chan with
        envelopeEnabled := true,
        addressInPattern := chan.addressInPattern + 1 }
      let g2 := { g1 with envBaseHi := getPatternByte chan1.patternData chan1.addressInPattern }
      let chan2 := { chan1 with addressInPattern := chan1.addressInPattern + 1 }
      let g3 := { g2 with envBaseLo := getPatternByte chan2.patternData chan2.addressInPattern }
      let chan3 := { chan2 with positionInOrnament := 0 }
      let g4 := { g3 with curEnvSlide := 0, curEnvDelay := 0 }
      (g4, { chan3 with addressInPattern := chan3.addressInPattern + 1 }, effects, false)
    else if byte = 0xb1 then
      let chan1 := { chan with addressInPattern := chan.addressInPattern + 1 }
      let chan2 := { chan1 with
        numberOfNotesToSkip := getPatternByte chan1.patternData chan1.addressInPattern }
      (g, { chan2 with addressInPattern := chan2.addressInPattern + 1 }, effects, false)
    else if byte = 0xb0 then
      (g, { chan with
        envelopeEnabled := false, positionInOrnament := 0,
        addressInPattern := chan.addressInPattern + 1 }, effects, false)
    else if 0x50 ≤ byte ∧ byte ≤ 0xaf then
      (g, { chan with
        note := byte - 0x50, positionInSample := 0,
        currentAmplitudeSliding := 0, currentNoiseSliding := 0, currentEnvelopeSliding := 0,
        positionInOrnament := 0, tonSlideCount := 0, currentTonSliding := 0,
        tonAccumulator := 0, currentOnOff := 0, enabled := true,
        addressInPattern := chan.addressInPattern + 1 }, effects, true)
    else if 0x40 ≤ byte ∧ byte ≤ 0x4f then
      let chan1 := setOrnament env chan (byte - 0x40)
      (g, { chan1 with
        positionInOrnament := 0,
        addressInPattern := chan1.addressInPattern + 1 }, effects, false)
    else if 0x20 ≤ byte ∧ byte ≤ 0x3f then
      ({ g with noiseBase := byte - 0x20 },
        { chan with addressInPattern := chan.addressInPattern + 1 }, effects, false)
    else if 0x10 ≤ byte ∧ byte ≤ 0x1f then
      if byte = 0x10 then
        let chan1 := { chan with
          envelopeEnabled := false,
          addressInPattern := chan.addressInPattern + 1 }
        let sampleByte := getPatternByte chan1.patternData chan1.addressInPattern
        let chan2 := setSample env chan1 (sampleByte / 2)
        let chan3 := { chan2 with positionInOrnament := 0 }
        (g, { chan3 with addressInPattern := chan3.addressInPattern + 1 }, effects, false)
      else
        let g1 := { g with newEnvelopeShape := byte - 0x10 }
        let chan1 := { chan with
          envelopeEnabled := true,
          addressInPattern := chan.addressInPattern + 1 }
        let g2 := { g1 with envBaseHi := getPatternByte chan1.patternData chan1.addressInPattern }
        let chan2 := { chan1 with addressInPattern := chan1.addressInPattern + 1 }
        let g3 := { g2 with envBaseLo := getPatternByte chan2.patternData chan2.addressInPattern }
        let chan3 := { chan2 with positionInOrnament := 0 }
        let g4 := { g3 with curEnvSlide := 0, curEnvDelay := 0 }
        let chan4 := { chan3 with addressInPattern := chan3.addressInPattern + 1 }
        let sampleByte := getPatternByte chan4.patternData chan4.addressInPattern
        let chan5 := setSample env chan4 (sampleByte / 2)
        let chan6 := { chan5 with positionInOrnament := 0 }
        (g4, { chan6 with addressInPattern := chan6.addressInPattern + 1 }, effects, false)
    else if 0x01 ≤ byte ∧ byte ≤ 0x09 then
      (g, { chan with addressInPattern := chan.addressInPattern + 1 }, effects ++ [byte], false)
    else
      (g, { chan with addressInPattern := chan.addressInPattern + 1 }, effects, false)
  )

/-- Embeds the row-parsing `while` loop of `interpretPattern` with its
100-iteration cap: run `rowBody` on the byte at the cursor until it quits or
the `iterations > 100` guard breaks out. Returns the updated global and
channel state, the collected effect codes, and the iteration count. -/
def rowLoop (env : Pt3Env) (iterations : Nat) (g : Pt3GlobalState) (chan : Pt3ChannelState)
    (effects : List Nat) : Pt3GlobalState × Pt3ChannelState × List Nat × Nat :=
  let iterations2 := iterations + 1
  if 100 < iterations2 then (g, chan, effects, iterations2)
  else
    let byte := getPatternByte chan.patternData chan.addressInPattern
    let b := rowBody env byte g chan effects
    if b.2.2.2 then (b.1, b.2.1, b.2.2.1, iterations2)
    else rowLoop env iterations2 b.1 b.2.1 b.2.2.1
termination_by 101 - iterations
decreasing_by all_goals omega


/-- Embeds the second pass of `interpretPattern`: consume one effect's
parameter bytes after the row end. `prNote` and `prSliding` are the row's
entry note and tone sliding (used by portamento). Each case reads its
parameter bytes at consecutive cursor positions and leaves the cursor past
them, exactly as the source's sequence of reads and increments does. -/
def applyEffectParam (env : Pt3Env) (prNote : Nat) (prSliding : Int)
    (st : Pt3GlobalState × Pt3ChannelState) (effectType : Nat) :
    Pt3GlobalState × Pt3ChannelState :=
  let g := st.1
  let chan := st.2
  let a := chan.addressInPattern
  if effectType = 0x01 then
    let d := getPatternByte chan.patternData a
    let stepLo := getPatternByte chan.patternData (a + 1)
    let stepHi := getPatternByte chan.patternData (a + 2)
    let stepRaw := stepLo ||| (stepHi <<< 8)
    let step : Int := if 32767 < stepRaw then (stepRaw : Int) - 65536 else (stepRaw : Int)
    (g, { chan with
      tonSlideDelay := d, tonSlideCount := (d : Int), addressInPattern := a + 3,
      tonSlideStep := step, simpleGliss := true, currentOnOff := 0 })
  else if effectType = 0x02 then
    let d := getPatternByte chan.patternData a
    let stepLo := getPatternByte chan.patternData (a + 3)
    let stepHi := getPatternByte chan.patternData (a + 4)
    let stepRaw := stepLo ||| (stepHi <<< 8)
    let step : Int := if 32767 < stepRaw then (stepRaw : Int) - 65536 else (stepRaw : Int)
    let tonDeltaV : Int := (env.toneTable.getD chan.note 0 : Int) -
      (env.toneTable.getD prNote 0 : Int)
    let slidingV : Int := if 6 ≤ g.version then prSliding else chan.currentTonSliding
    let stepAbs : Int := (step.natAbs : Int)
    let stepSigned : Int := if tonDeltaV - slidingV < 0 then -stepAbs else stepAbs
    (g, { chan with
      simpleGliss := false, currentOnOff := 0,
      tonSlideDelay := d, tonSlideCount := (d : Int), addressInPattern := a + 5,
      tonSlideStep := stepSigned, tonDelta := tonDeltaV,
      slideToNote := chan.note, note := prNote, currentTonSliding := slidingV })
  else if effectType = 0x03 then
    (g, { chan with
      positionInSample := getPatternByte chan.patternData a,
      addressInPattern := a + 1 })
  else if effectType = 0x04 then
    (g, { chan with
      positionInOrnament := getPatternByte chan.patternData a,
      addressInPattern := a + 1 })
  else if effectType = 0x05 then
    let onT := getPatternByte chan.patternData a
    let offT := getPatternByte chan.patternData (a + 1)
    (g, { chan with
      onOffDelay := onT, offOnDelay := offT, addressInPattern := a + 2,
      currentOnOff := onT, tonSlideCount := 0, currentTonSliding := 0 })
  else if effectType = 0x08 then
    let d := getPatternByte chan.patternData a
    let slideLo := getPatternByte chan.patternData (a + 1)
    let slideHi := getPatternByte chan.patternData (a + 2)
    let slideRaw := slideLo ||| (slideHi <<< 8)
    let slide : Int := if 32767 < slideRaw then (slideRaw : Int) - 65536 else (slideRaw : Int)
    ({ g with envDelay := d, curEnvDelay := d, envSlideAdd := slide },
      { chan with addressInPattern := a + 3 })
  else if effectType = 0x09 then
    let d := getPatternByte chan.patternData a
    ({ g with delay := max 1 d }, { chan with addressInPattern := a + 1 })
  else
    (g, chan)

/-- Embeds `Pt3Player.interpretPattern` for one channel: run the row loop,
consume the collected effects' parameters in reverse order, then reload
`noteSkipCounter` from `numberOfNotesToSkip`. Also returns the row loop's
iteration count (the source tracks it in the `iterations` variable). -/
def interpretPattern (env : Pt3Env) (g : Pt3GlobalState) (chan : Pt3ChannelState) :
    Pt3GlobalState × Pt3ChannelState × Nat :=
  let prNote := chan.note
  let prSliding := chan.currentTonSliding
  let lr := rowLoop env 0 g chan []
  let folded := (lr.2.2.1).reverse.foldl (applyEffectParam env prNote prSliding) (lr.1, lr.2.1)
  (folded.1, { folded.2 with noteSkipCounter := (folded.2.numberOfNotesToSkip : Int) },
    lr.2.2.2)

/-- The row loop's iteration counter stays at most 101 when it starts at most
at 100 (the cap breaks the loop at 101). -/
theorem rowLoop_iterations_le (env : Pt3Env) :
    ∀ (k i : Nat) (g : Pt3GlobalState) (chan : Pt3ChannelState) (effects : List Nat),
      101 - i = k → i ≤ 100 → (rowLoop env i g chan effects).2.2.2 ≤ 101 := by
  intro k
  induction k with
  | zero => intro i g chan effects hk hi; omega
  | succ k ih =>
    intro i g chan effects hk hi
    rw [rowLoop]
    by_cases hcap : 100 < i + 1
    · rw [if_pos hcap]
      show i + 1 ≤ 101
      omega
    · rw [if_neg hcap]
      by_cases hq : (rowBody env (getPatternByte chan.patternData chan.addressInPattern)
          g chan effects).2.2.2 = true
      · rw [if_pos hq]
        show i + 1 ≤ 101
        omega
      · rw [if_neg hq]
        exact ih (i + 1) _ _ _ (by omega) (by omega)

/-- C10: the PT3 row interpreter is a total function on every pattern byte
array, cursor position and channel state: reading at or past the end of the
stored pattern data yields byte 0x00; byte 0x00 ends the row after a single
loop iteration without advancing the cursor; and the row-parsing loop's
iteration counter is hard-capped (it never exceeds 101, where 101 is the
value at which the `iterations > 100` guard breaks out). -/
theorem c10_interpret_pattern_total (env : Pt3Env) :
    (∀ (data : List Nat) (off : Nat), data.length ≤ off → getPatternByte data off = 0) ∧
    (∀ (g : Pt3GlobalState) (chan : Pt3ChannelState),
      getPatternByte chan.patternData chan.addressInPattern = 0 →
      (interpretPattern env g chan).2.1.addressInPattern = chan.addressInPattern ∧
      (interpretPattern env g chan).2.2 = 1) ∧
    (∀ (g : Pt3GlobalState) (chan : Pt3ChannelState),
      (interpretPattern env g chan).2.2 ≤ 101) := by
  refine ⟨?_, ?_, ?_⟩
  · intro data off h
    simp [getPatternByte, h]
  · intro g chan h0
    have hbody : rowBody env 0 g chan [] = (g, chan, [], true) := rfl
    have hrow : rowLoop env 0 g chan [] = (g, chan, [], 1) := by
      rw [rowLoop]
      rw [if_neg (by omega : ¬ (100 < 0 + 1))]
      simp only [h0, hbody]
      norm_num
    simp only [interpretPattern, hrow, List.reverse_nil, List.foldl_nil]
    refine ⟨?_, ?_⟩ <;> first | rfl | trivial
  · intro g chan
    have h := rowLoop_iterations_le env 101 0 g chan [] (by omega) (by omega)
    show (rowLoop env 0 g chan []).2.2.2 ≤ 101
    exact h

/-- Witness for C10 at concrete inputs: an empty pattern (every read yields 0)
on the freshly created channel state. -/
theorem c10_witness :
    getPatternByte [] 5 = 0 ∧
    (interpretPattern ⟨[], [], []⟩ (createPlayerStateGlobals 6 3)
      createChannelState).2.1.addressInPattern = createChannelState.addressInPattern ∧
    (interpretPattern ⟨[], [], []⟩ (createPlayerStateGlobals 6 3)
      createChannelState).2.2 = 1 ∧
    (interpretPattern ⟨[], [], []⟩ (createPlayerStateGlobals 6 3)
      createChannelState).2.2 ≤ 101 :=
  ⟨(c10_interpret_pattern_total ⟨[], [], []⟩).1 [] 5 (by decide),
   ((c10_interpret_pattern_total ⟨[], [], []⟩).2.1 (createPlayerStateGlobals 6 3)
      createChannelState (by decide)).1,
   ((c10_interpret_pattern_total ⟨[], [], []⟩).2.1 (createPlayerStateGlobals 6 3)
      createChannelState (by decide)).2,
   (c10_interpret_pattern_total ⟨[], [], []⟩).2.2 (createPlayerStateGlobals 6 3)
      createChannelState⟩

end Ym2149Wa
